import Mathlib

/-!
# Cocky Roach: a verification development of `cocky_roach.cpp`

A shallow embedding of the simulation core of the game (collision
detection, flyer physics, obstacle physics and recycling) together with
theorems about it.

Conventions of the embedding:

* C++ `int` values are modelled by `Int`.  Signed overflow is undefined
  behaviour in C++, and every coordinate of the game stays far below
  `2^31`, so no wrap-around is modelled.
* The `float` accumulators `mRVel` hold rational numbers (`ℚ`).  The
  methods are first given in exact arithmetic (`0.008f` as `1/125`,
  `GRAVITY / 8.0f` as `5/4`, `-GRAVITY / 2.2f` as `-50/11`);
  `Roach.gravitate32` is `Roach::gravitate` with the addition rounded to
  binary32 as the machine does it.  The C++ conversion `(int)f` truncates
  toward zero.
* `std::vector<SDL_Rect>` is a `List SDL_Rect`.
* The globals `currentScore`, `startTime`, `endGame` and the hidden state
  of the C library `rand()` are passed explicitly in `Globals`.
-/

namespace CockyRoach

/-! ## Constants and data model -/

/-- Screen width, `const int SCREEN_WIDTH = 640`. -/
def SCREEN_WIDTH : Int := 640

/-- Screen height, `const int SCREEN_HEIGHT = 480`. -/
def SCREEN_HEIGHT : Int := 480

/-- Number of obstacle pairs, `#define NUM_OF_OBSTACLES 2`. -/
def NUM_OF_OBSTACLES : Nat := 2

/-- The rectangle of SDL: top-left corner `(x, y)`, width `w`, height `h`. -/
structure SDL_Rect where
  x : Int
  y : Int
  w : Int
  h : Int
deriving DecidableEq, Repr

/-- The mutable globals of the program (`currentScore`, `startTime`,
`endGame`) and the state of the C library random generator: `randSeq i` is
the value the `i`-th call of `rand()` returns and `randCalls` counts the
calls made so far. -/
structure Globals where
  currentScore : Nat
  startTime : Nat
  endGame : Bool
  randSeq : Nat → Nat
  randCalls : Nat

/-- One call of `rand()`: the next value of the sequence (never negative),
and the generator advanced by one. -/
def rand (g : Globals) : Int × Globals :=
  ((g.randSeq g.randCalls : Int), { g with randCalls := g.randCalls + 1 })

/-! ## Collision detector -/

/-- The test of one flyer box against one obstacle box, `checkCollision`
line 931: the boxes are apart when one of the four separating conditions
holds, and they collide when that disjunction is `false`. -/
def boxesCollide (r o : SDL_Rect) : Bool :=
  let leftObstacle := o.x
  let rightObstacle := o.x + o.w
  let topObstacle := o.y
  let bottomObstacle := o.y + o.h
  let leftRoach := r.x
  let rightRoach := r.x + r.w
  let topRoach := r.y
  let bottomRoach := r.y + r.h
  (decide (bottomRoach ≤ topObstacle) || decide (topRoach ≥ bottomObstacle)
    || decide (rightRoach ≤ leftObstacle) || decide (leftRoach ≥ rightObstacle)) == false

/-- The function `checkCollision(roach, obstacle)` (lines 900-940): the outer loop runs over
the obstacle boxes, the inner loop over the flyer boxes, and the first
colliding pair returns `true`. -/
def checkCollision (roach obstacle : List SDL_Rect) : Bool :=
  obstacle.any fun o => roach.any fun r => boxesCollide r o

/-! ## Flyer (`Roach`) -/

/-- The C++ conversion `(int)f` of a `float`: the fractional part is
discarded, so the value is rounded toward zero. -/
def toInt (f : ℚ) : Int :=
  if 0 ≤ f then ⌊f⌋ else ⌈f⌉

/-- Event type `SDL_KEYDOWN` of the SDL headers. -/
def SDL_KEYDOWN : Nat := 0x300

/-- Event type `SDL_KEYUP` of the SDL headers. -/
def SDL_KEYUP : Nat := 0x301

/-- Key code `SDLK_SPACE` of the SDL headers (the character `' '`). -/
def SDLK_SPACE : Int := 32

/-- The part of `SDL_Event` the game reads: `e.type`, `e.key.repeat` and
`e.key.keysym.sym`. -/
structure SDL_Event where
  type : Nat
  key_repeat : Nat
  sym : Int
deriving DecidableEq, Repr

/-- The class `Roach`: position, velocity, the `float` accumulator `mRVel`
and the collision boxes. -/
structure Roach where
  mPosX : Int
  mPosY : Int
  mVelX : Int
  mVelY : Int
  mRVel : ℚ
  mColliders : List SDL_Rect
deriving DecidableEq

namespace Roach

/-- Width of the flyer, `ROACH_WIDTH = 92`. -/
def ROACH_WIDTH : Int := 92

/-- Height of the flyer, `ROACH_HEIGHT = 59`. -/
def ROACH_HEIGHT : Int := 59

/-- The constant `GRAVITY = 10.0f`. -/
def GRAVITY : ℚ := 10

/-- The method `Roach::shiftColliders` (lines 472-479): boxes 0 and 1 are moved to the current
position; the `y` of box 1 is taken from the height of box 0.  The vector
holds two boxes from construction on (indexing a shorter vector is
undefined in C++; the model leaves it alone). -/
def shiftColliders (r : Roach) : Roach :=
  match r.mColliders with
  | c0 :: c1 :: rest =>
    { r with mColliders :=
        { c0 with x := r.mPosX + 28, y := r.mPosY + 5 }
          :: { c1 with x := r.mPosX + 2, y := r.mPosY + c0.h } :: rest }
  | _ => r

/-- The constructor `Roach::Roach()` (lines 394-417); the fresh `SDL_Rect`s of
`resize(2)` are zero-initialised. -/
def new : Roach :=
  shiftColliders
    { mPosX := (SCREEN_WIDTH / 2) - (ROACH_WIDTH / 2)
      mPosY := SCREEN_HEIGHT / 2 - (ROACH_HEIGHT / 2)
      mVelX := 0
      mVelY := 0
      mRVel := 0
      mColliders := [⟨0, 0, 66, 33⟩, ⟨0, 0, 91, 17⟩] }

/-- The method `Roach::handleEvent` (lines 419-443). -/
def handleEvent (r : Roach) (e : SDL_Event) : Roach :=
  if e.type = SDL_KEYDOWN ∧ e.key_repeat = 0 ∧ r.mRVel ≥ GRAVITY / 8 then
    if e.sym = SDLK_SPACE then { r with mRVel := -GRAVITY / (22 / 10) } else r
  else if e.type = SDL_KEYUP ∧ e.key_repeat = 0 then
    if e.sym = SDLK_SPACE then { r with mRVel := r.mRVel + GRAVITY / 8 } else r
  else r

/-- The method `Roach::gravitate` (lines 465-470) with the accumulator in
exact arithmetic: `0.008f` is taken as `1/125` and the sum is not rounded.
The same method with binary32 rounding is `Roach.gravitate32`. -/
def gravitate (r : Roach) : Roach :=
  let r := { r with mRVel := r.mRVel + 8 / 1000 }
  { r with mVelY := toInt r.mRVel }

/-- The method `Roach::move` (lines 445-463); the two arguments are not read by the body. -/
def move (r : Roach) (_shelf _lights : List SDL_Rect) (g : Globals) : Roach × Globals :=
  let r := if (r.mVelY : ℚ) ≥ GRAVITY then { r with mVelY := toInt GRAVITY } else r
  let r := { r with mPosY := r.mPosY + r.mVelY }
  let r := r.shiftColliders
  if r.mPosY < 0 ∨ r.mPosY + ROACH_HEIGHT > SCREEN_HEIGHT then
    let r := { r with mPosY := r.mPosY - r.mVelY }
    (r.shiftColliders, { g with endGame := true })
  else
    (r, g)

end Roach

/-! ## Obstacle `Shelf` -/

/-- The class `Shelf`. -/
structure Shelf where
  mPosX : Int
  mPosY : Int
  mVelX : Int
  mVelY : Int
  mRVel : ℚ
  mColliders : List SDL_Rect
deriving DecidableEq

namespace Shelf

/-- Width of the shelf, `SHELF_WIDTH = 141`. -/
def SHELF_WIDTH : Int := 141

/-- Height of the shelf, `SHELF_HEIGHT = 480`. -/
def SHELF_HEIGHT : Int := 480

/-- The constant `SHELF_SPEED = 1.0f`. -/
def SHELF_SPEED : ℚ := 1

/-- The loop of `Shelf::shiftColliders` from row offset `r` on. -/
def shiftFrom (mPosX mPosY : Int) : Int → List SDL_Rect → List SDL_Rect
  | _, [] => []
  | r, c :: cs =>
    { c with x := mPosX + (SHELF_WIDTH - c.w), y := mPosY + r }
      :: shiftFrom mPosX mPosY (r + c.h) cs

/-- The method `Shelf::shiftColliders` (lines 521-533). -/
def shiftColliders (s : Shelf) : Shelf :=
  { s with mColliders := shiftFrom s.mPosX s.mPosY 0 s.mColliders }

/-- The constructor `Shelf::Shelf()` (lines 492-512), which draws two random numbers. -/
def new (g : Globals) : Shelf × Globals :=
  let d1 := rand g
  let d2 := rand d1.2
  (shiftColliders
    { mPosX := SCREEN_WIDTH - (d1.1 % 20)
      mPosY := d2.1 % SCREEN_HEIGHT + ((SCREEN_HEIGHT / 2) + 100)
      mVelX := 0
      mVelY := 0
      mRVel := 0
      mColliders := [⟨0, 0, 141, 480⟩] }, d2.2)

/-- The method `Shelf::accelerate` (lines 514-519). -/
def accelerate (s : Shelf) : Shelf :=
  let s := { s with mRVel := s.mRVel + 8 / 1000 }
  { s with mVelX := toInt s.mRVel }

/-- The method `Shelf::randomise` (lines 573-584). -/
def randomise (s : Shelf) (g : Globals) : Shelf × Globals :=
  let d := rand g
  let randomHeight := 50 + d.1 % (SCREEN_HEIGHT + 1) - 50
  let randomHeight :=
    if randomHeight < SCREEN_HEIGHT / 3 then randomHeight + 100 else randomHeight
  ({ s with mPosY := randomHeight }, d.2)

/-- The method `Shelf::move` (lines 540-565). -/
def move (s : Shelf) (roach : List SDL_Rect) (g : Globals) : Shelf × Globals :=
  let s := if (s.mVelX : ℚ) ≥ SHELF_SPEED then { s with mVelX := toInt SHELF_SPEED } else s
  let s := { s with mPosX := s.mPosX - s.mVelX }
  let s := s.shiftColliders
  let sg : Shelf × Globals :=
    if s.mPosX + SHELF_WIDTH < 0 then
      let sg := randomise { s with mPosX := SCREEN_WIDTH } g
      (sg.1.shiftColliders, sg.2)
    else (s, g)
  if checkCollision roach sg.1.mColliders then
    (shiftColliders { sg.1 with mPosX := sg.1.mPosX + sg.1.mVelX }, { sg.2 with endGame := true })
  else sg

end Shelf

/-! ## Obstacle `Lights` -/

/-- The class `Lights`. -/
structure Lights where
  mPosX : Int
  mPosY : Int
  mVelX : Int
  mVelY : Int
  mRVel : ℚ
  mColliders : List SDL_Rect
deriving DecidableEq

namespace Lights

/-- Width of the lights, `LIGHTS_WIDTH = 103`. -/
def LIGHTS_WIDTH : Int := 103

/-- Height of the lights, `LIGHTS_HEIGHT = 480`. -/
def LIGHTS_HEIGHT : Int := 480

/-- The constant `LIGHTS_SPEED = 1.0f`. -/
def LIGHTS_SPEED : ℚ := 1

/-- The method `Lights::shiftColliders` (lines 625-640): pole, lamp and bulb are set by hand.  The
vector holds three boxes from construction on. -/
def shiftColliders (l : Lights) : Lights :=
  match l.mColliders with
  | c0 :: c1 :: c2 :: rest =>
    { l with mColliders :=
        { c0 with x := l.mPosX + 46, y := l.mPosY }
          :: { c1 with x := l.mPosX, y := l.mPosY + c0.h }
          :: { c2 with x := l.mPosX + 40, y := l.mPosY + c0.h + c1.h } :: rest }
  | _ => l

/-- The constructor `Lights::Lights()` (lines 586-616), which draws one random number. -/
def new (g : Globals) : Lights × Globals :=
  let d := rand g
  (shiftColliders
    { mPosX := SCREEN_WIDTH - (d.1 % 20)
      mPosY := 0
      mVelX := 0
      mVelY := 0
      mRVel := 0
      mColliders := [⟨0, 0, 11, 420⟩, ⟨0, 0, 103, 45⟩, ⟨0, 0, 20, 17⟩] }, d.2)

/-- The method `Lights::accelerate` (lines 618-623). -/
def accelerate (l : Lights) : Lights :=
  let l := { l with mRVel := l.mRVel + 8 / 1000 }
  { l with mVelX := toInt l.mRVel }

/-- The method `Lights::randomise` (lines 687-706). -/
def randomise (l : Lights) (shelf_y_position : Int) (g : Globals) : Lights × Globals :=
  let d := rand g
  let randomHeight := d.1 % (LIGHTS_HEIGHT - 100)
  let l := { l with mPosY := randomHeight * (-1) }
  let lightsPosition := l.mPosY + LIGHTS_HEIGHT
  let l :=
    if lightsPosition ≥ shelf_y_position - 200 then
      { l with mPosY := shelf_y_position - LIGHTS_HEIGHT - 100 }
    else l
  let l :=
    if l.mPosY + LIGHTS_HEIGHT ≥ SCREEN_HEIGHT - 100 then
      { l with mPosY := l.mPosY - 150 }
    else l
  (l, d.2)

/-- The method `Lights::move` (lines 647-672). -/
def move (l : Lights) (shelf_x_position shelf_y_position : Int) (roach : List SDL_Rect)
    (g : Globals) : Lights × Globals :=
  let l := if (l.mVelX : ℚ) ≥ LIGHTS_SPEED then { l with mVelX := toInt LIGHTS_SPEED } else l
  let l := { l with mPosX := l.mPosX - l.mVelX }
  let l := l.shiftColliders
  let lg : Lights × Globals :=
    if l.mPosX + LIGHTS_WIDTH < 0 ∧ shelf_x_position > SCREEN_WIDTH / 2 then
      let lg := randomise { l with mPosX := shelf_x_position + 20 } shelf_y_position g
      (lg.1.shiftColliders, lg.2)
    else (l, g)
  if checkCollision roach lg.1.mColliders then
    (shiftColliders { lg.1 with mPosX := lg.1.mPosX + lg.1.mVelX }, { lg.2 with endGame := true })
  else lg

end Lights

/-! ## Auxiliary definitions used in the statements -/

/-- Two rectangles overlap strictly on both axes. -/
def strictOverlap (a b : SDL_Rect) : Prop :=
  a.x < b.x + b.w ∧ b.x < a.x + a.w ∧ a.y < b.y + b.h ∧ b.y < a.y + a.h

/-- The globals when `main` starts a menu: the zero-initialised
`currentScore`, `startTime = 0`, `endGame = false`, and a random generator
that will return the values `seq 0, seq 1, ...`. -/
def Globals.start (seq : Nat → Nat) : Globals :=
  { currentScore := 0, startTime := 0, endGame := false, randSeq := seq, randCalls := 0 }

/-- The collider set of a flyer that sits at its fixed `x` (that of the
constructor, 274) and at height `y`. -/
def Roach.collidersAt (y : Int) : List SDL_Rect :=
  (Roach.shiftColliders { Roach.new with mPosY := y }).mColliders

/-- A non-repeated key-down of the space bar. -/
def pressSpace : SDL_Event := { type := SDL_KEYDOWN, key_repeat := 0, sym := SDLK_SPACE }

/-- A key-up of the space bar. -/
def releaseSpace : SDL_Event := { type := SDL_KEYUP, key_repeat := 0, sym := SDLK_SPACE }

/-- The calls the game loop makes on the flyer when there is no input. -/
inductive RoachCall where
  | gravitate
  | move
deriving DecidableEq, Repr

/-- Runs a sequence of `gravitate` and `move` calls on a flyer (as the game
loop does, `move` gets the flyer's own colliders) and lists, in order, the
value of `mVelY` that each `move` added to `mPosY`. -/
def moveVelocities : Roach → Globals → List RoachCall → List Int
  | _, _, [] => []
  | r, g, RoachCall.gravitate :: cs => moveVelocities r.gravitate g cs
  | r, g, RoachCall.move :: cs =>
    let rg := r.move r.mColliders r.mColliders g
    rg.1.mVelY :: moveVelocities rg.1 rg.2 cs

/-! ## Obstacles at the collision test -/

/-- The state `Shelf::move` has reached when it calls `checkCollision`
(line 558): velocity clamped, step to the left, and the recycle when the
shelf has left the screen. -/
def Shelf.atCheck (s : Shelf) (g : Globals) : Shelf × Globals :=
  let s := if (s.mVelX : ℚ) ≥ Shelf.SHELF_SPEED then { s with mVelX := toInt Shelf.SHELF_SPEED } else s
  let s := { s with mPosX := s.mPosX - s.mVelX }
  let s := s.shiftColliders
  if s.mPosX + Shelf.SHELF_WIDTH < 0 then
    let sg := Shelf.randomise { s with mPosX := SCREEN_WIDTH } g
    (sg.1.shiftColliders, sg.2)
  else (s, g)

/-- The state `Lights::move` has reached when it calls `checkCollision`
(line 665): velocity clamped, step to the left, and the recycle when the
lights have left the screen and the paired shelf is past the midpoint. -/
def Lights.atCheck (l : Lights) (shelf_x_position shelf_y_position : Int) (g : Globals) :
    Lights × Globals :=
  let l := if (l.mVelX : ℚ) ≥ Lights.LIGHTS_SPEED then { l with mVelX := toInt Lights.LIGHTS_SPEED } else l
  let l := { l with mPosX := l.mPosX - l.mVelX }
  let l := l.shiftColliders
  if l.mPosX + Lights.LIGHTS_WIDTH < 0 ∧ shelf_x_position > SCREEN_WIDTH / 2 then
    let lg := Lights.randomise { l with mPosX := shelf_x_position + 20 } shelf_y_position g
    (lg.1.shiftColliders, lg.2)
  else (l, g)

/-! ## Binary32 arithmetic of the accumulator -/

/-- Rounding of a rational to the nearest integer, ties to the even one. -/
def roundEven (q : ℚ) : Int :=
  if q - ⌊q⌋ < 1 / 2 then ⌊q⌋
  else if q - ⌊q⌋ > 1 / 2 then ⌊q⌋ + 1
  else if ⌊q⌋ % 2 = 0 then ⌊q⌋ else ⌊q⌋ + 1

/-- The binary32 (`float`) number nearest to `x`, ties to even: 24
significant bits, least exponent `-126` (below it the spacing stays
`2^-149`).  Values beyond the largest finite `float` have no rational
image; the model is meant for the finite range. -/
def binary32 (x : ℚ) : ℚ :=
  if x = 0 then 0
  else
    let e := max (Int.log 2 |x|) (-126)
    (roundEven (x / 2 ^ (e - 23)) : ℚ) * 2 ^ (e - 23)

/-- The method `Roach::gravitate` (lines 465-470) as the machine computes
it: the literal `0.008f` is the binary32 number nearest to 0.008, and the
sum `mRVel + 0.008f` is rounded to binary32 before it is stored. -/
def Roach.gravitate32 (r : Roach) : Roach :=
  let r := { r with mRVel := binary32 (r.mRVel + binary32 (8 / 1000)) }
  { r with mVelY := toInt r.mRVel }

/-! ## Score and high score -/

/-- The assignments at the start of `startGame` (lines 1065-1067):
`currentScore = 0`, `endGame = false`, `startTime = SDL_GetTicks()`; `ticks`
is the value `SDL_GetTicks()` returns. -/
def startGame_init (ticks : Nat) (g : Globals) : Globals :=
  { g with currentScore := 0, endGame := false, startTime := ticks }

/-- The function `calculateScore` (lines 1292-1309) without the rendering of
the text; `ticks1` and `ticks2` are the values of its two `SDL_GetTicks()`
calls.  All quantities are `Uint32`: the subtraction and the addition wrap
modulo `2^32`. -/
def calculateScore (ticks1 ticks2 : Nat) (g : Globals) : Globals :=
  if ((ticks1 + 2 ^ 32 - g.startTime) % 2 ^ 32) % 100 = 0
      ∧ (ticks2 + 2 ^ 32 - g.startTime) % 2 ^ 32 ≥ 3000 then
    { g with currentScore := (g.currentScore + 5) % 2 ^ 32 }
  else g

/-- The globals after `calculateScore` has been called once at every
millisecond `0, 1, ..., T` (both clock reads of a call give the same
millisecond). -/
def sampleScore (g : Globals) : Nat → Globals
  | 0 => calculateScore 0 0 g
  | T + 1 => calculateScore (T + 1) (T + 1) (sampleScore g T)

/-- The assignment `highScore = atoi(s)`: the `int` read from the file is
converted to `Uint32`. -/
def atoiUint32 (z : Int) : Nat :=
  (z % 2 ^ 32).toNat

/-- The text written by `sprintf(s, "%d", highScore)`: the `Uint32` is
printed as an `int`. -/
def sprintfD (u : Nat) : Int :=
  if u < 2 ^ 31 then (u : Int) else (u : Int) - 2 ^ 32

/-- The file `hs.hs` as the program meets it: `content` is `none` when
there is no such file and `some z` when the file holds the text of the
`int` `z`; `readable` tells whether opening the file for reading succeeds
when it exists, `writable` whether opening it for writing (which creates
it when absent) succeeds. -/
structure HsFile where
  content : Option Int
  readable : Bool
  writable : Bool
deriving DecidableEq, Repr

/-- What `file.open("hs.hs", fstream::in)` followed by `file >> s` and
`atoi(s)` yields: the stored number when `file.good()`, and `none` when the
file is absent or cannot be opened for reading. -/
def HsFile.read (f : HsFile) : Option Int :=
  if f.readable then f.content else none

/-- The function `evaluateScore` (lines 1241-1290).  The result is the file
after the call: when `highScore` is not the value 1 and the file can be
opened for writing, its content is replaced by the text of `highScore`. -/
def evaluateScore (file : HsFile) (g : Globals) : HsFile :=
  let highScore : Nat :=
    match file.read with
    | some z =>
      let highScore := atoiUint32 z
      if highScore ≥ 0 ∧ g.currentScore > highScore then g.currentScore
      else if g.currentScore < highScore then 1
      else highScore
    | none => if g.currentScore ≠ 0 then g.currentScore else 0
  if highScore ≠ 1 then
    if file.writable then { file with content := some (sprintfD highScore) } else file
  else file

/-- The number `showScore(true)` shows after `High Score:` (lines
1196-1216): `atoi` of the file when it can be read, and 0 otherwise. -/
def showScore_highScore (file : HsFile) : Int :=
  match file.read with
  | some z => z
  | none => 0

/-! ## Initial placement -/

/-- The call `srand(time(0))`: the generator restarts with the sequence
`seq` that belongs to the seed. -/
def srand (seq : Nat → Nat) (g : Globals) : Globals :=
  { g with randSeq := seq, randCalls := 0 }

/-- One pass of the loop body of `randomise_shelf` for index `i`. -/
def randomise_shelf_body (st : List Shelf × Globals) (i : Nat) : List Shelf × Globals :=
  let max := SCREEN_HEIGHT - 100
  let min := 50 + SCREEN_HEIGHT / 2
  let d := rand st.2
  let randomHeight := min + d.1 % ((max + 1) - min)
  let shelf := st.1
  let shelf :=
    if i ≠ 0 then
      match shelf[i - 1]?, shelf[i]? with
      | some p, some s =>
        shelf.set i (Shelf.shiftColliders { s with mPosX := p.mPosX + Shelf.SHELF_WIDTH + 200 })
      | _, _ => shelf
    else shelf
  let shelf :=
    match shelf[i]? with
    | some s => shelf.set i (Shelf.shiftColliders { s with mPosY := randomHeight })
    | none => shelf
  (shelf, d.2)

/-- The function `randomise_shelf` (lines 852-874); `seq` is the random
sequence of the seed `time(0)`. -/
def randomise_shelf (shelf : List Shelf) (seq : Nat → Nat) (g : Globals) : List Shelf × Globals :=
  (List.range NUM_OF_OBSTACLES).foldl randomise_shelf_body (shelf, srand seq g)

/-- One pass of the loop body of `randomise_lights` for index `i`. -/
def randomise_lights_body (st : List Lights × Globals) (i : Nat) : List Lights × Globals :=
  let max := Lights.LIGHTS_HEIGHT - 100
  let min := (Lights.LIGHTS_HEIGHT / 2) + 100
  let d := rand st.2
  let randomHeight := min + d.1 % ((max + 1) - min)
  let lights := st.1
  let lights :=
    if i ≠ 0 then
      match lights[i - 1]?, lights[i]? with
      | some p, some l =>
        lights.set i (Lights.shiftColliders { l with mPosX := p.mPosX + Lights.LIGHTS_WIDTH + 250 })
      | _, _ => lights
    else lights
  let lights :=
    match lights[i]? with
    | some l => lights.set i (Lights.shiftColliders { l with mPosY := randomHeight * -1 })
    | none => lights
  (lights, d.2)

/-- The function `randomise_lights` (lines 876-898); `seq` is the random
sequence of the seed `time(0)`. -/
def randomise_lights (lights : List Lights) (seq : Nat → Nat) (g : Globals) :
    List Lights × Globals :=
  (List.range NUM_OF_OBSTACLES).foldl randomise_lights_body (lights, srand seq g)

/-! ## Collision detector: characterisation and symmetry -/

theorem boxesCollide_iff (r o : SDL_Rect) :
    boxesCollide r o = true ↔ strictOverlap r o := by
  simp only [boxesCollide, strictOverlap, beq_iff_eq, Bool.or_eq_false_iff,
    decide_eq_false_iff_not, not_le, ge_iff_le]
  constructor
  · rintro ⟨⟨⟨h1, h2⟩, h3⟩, h4⟩
    exact ⟨h4, h3, h2, h1⟩
  · rintro ⟨h4, h3, h2, h1⟩
    exact ⟨⟨⟨h1, h2⟩, h3⟩, h4⟩

theorem checkCollision_iff (A B : List SDL_Rect) :
    checkCollision A B = true ↔ ∃ a ∈ A, ∃ b ∈ B, strictOverlap a b := by
  simp only [checkCollision, List.any_eq_true, boxesCollide_iff]
  constructor
  · rintro ⟨b, hb, a, ha, h⟩
    exact ⟨a, ha, b, hb, h⟩
  · rintro ⟨a, ha, b, hb, h⟩
    exact ⟨b, hb, a, ha, h⟩

theorem strictOverlap_comm (a b : SDL_Rect) : strictOverlap a b ↔ strictOverlap b a := by
  unfold strictOverlap
  constructor <;> rintro ⟨h1, h2, h3, h4⟩ <;> exact ⟨h2, h1, h4, h3⟩

/-- Claim C1: `checkCollision A B` is `true` exactly when some box of `A`
and some box of `B` overlap strictly on both axes; boxes that only share an
edge do not collide (`[0,0,10,10]` against `[10,0,10,10]` gives `false`),
and an empty set on either side gives `false`. -/
theorem checkCollision_spec :
    (∀ A B : List SDL_Rect,
      checkCollision A B = true ↔
        ∃ a ∈ A, ∃ b ∈ B,
          a.x < b.x + b.w ∧ b.x < a.x + a.w ∧ a.y < b.y + b.h ∧ b.y < a.y + a.h)
    ∧ checkCollision [⟨0, 0, 10, 10⟩] [⟨10, 0, 10, 10⟩] = false
    ∧ (∀ B : List SDL_Rect, checkCollision [] B = false)
    ∧ (∀ A : List SDL_Rect, checkCollision A [] = false) := by
  refine ⟨fun A B => checkCollision_iff A B, by decide, ?_, ?_⟩
  · intro B
    rw [← Bool.not_eq_true, checkCollision_iff]
    simp
  · intro A
    rfl

/-- Claim C2: `checkCollision` is symmetric, for single boxes and for whole
collider sets, although the obstacle set is walked in the outer loop and
the flyer set in the inner loop. -/
theorem checkCollision_symm :
    (∀ a b : SDL_Rect, checkCollision [a] [b] = checkCollision [b] [a])
    ∧ (∀ A B : List SDL_Rect, checkCollision A B = checkCollision B A) := by
  have key : ∀ A B : List SDL_Rect, checkCollision A B = checkCollision B A := by
    intro A B
    rw [Bool.eq_iff_iff, checkCollision_iff, checkCollision_iff]
    constructor
    · rintro ⟨a, ha, b, hb, h⟩
      exact ⟨b, hb, a, ha, (strictOverlap_comm a b).1 h⟩
    · rintro ⟨b, hb, a, ha, h⟩
      exact ⟨a, ha, b, hb, (strictOverlap_comm b a).1 h⟩
  exact ⟨fun a b => key [a] [b], key⟩

/-! ## Facts about the conversions -/

theorem toInt_intCast (n : Int) : toInt (n : ℚ) = n := by
  unfold toInt
  split <;> simp

theorem toInt_mono {a b : ℚ} (h : a ≤ b) : toInt a ≤ toInt b := by
  unfold toInt
  split_ifs with ha hb hb
  · exact Int.floor_mono h
  · exact absurd (ha.trans h) hb
  · have h1 : a ≤ ((0 : Int) : ℚ) := by push_cast; linarith
    have h2 : ((0 : Int) : ℚ) ≤ b := by push_cast; linarith
    exact (Int.ceil_le.2 h1).trans (Int.le_floor.2 h2)
  · exact Int.ceil_mono h

theorem toInt_GRAVITY : toInt Roach.GRAVITY = 10 := by
  have h : Roach.GRAVITY = ((10 : Int) : ℚ) := by norm_num [Roach.GRAVITY]
  rw [h, toInt_intCast]

theorem intCast_ge_GRAVITY (v : Int) : ((v : ℚ) ≥ Roach.GRAVITY) ↔ 10 ≤ v := by
  have h : Roach.GRAVITY = ((10 : Int) : ℚ) := by norm_num [Roach.GRAVITY]
  rw [h, ge_iff_le, Int.cast_le]

/-! ## Flyer: `Roach::move` -/

theorem Roach_shiftColliders_fields (r : Roach) :
    r.shiftColliders.mPosX = r.mPosX ∧ r.shiftColliders.mPosY = r.mPosY
    ∧ r.shiftColliders.mVelX = r.mVelX ∧ r.shiftColliders.mVelY = r.mVelY
    ∧ r.shiftColliders.mRVel = r.mRVel := by
  unfold Roach.shiftColliders
  split <;> simp

theorem Roach_move_two (r : Roach) (sh li : List SDL_Rect) (g : Globals) (c0 c1 : SDL_Rect)
    (hc : r.mColliders = [c0, c1]) :
    Roach.move r sh li g =
      if r.mPosY + min r.mVelY 10 < 0 ∨ r.mPosY + min r.mVelY 10 + 59 > 480 then
        ({ r with mVelY := min r.mVelY 10,
                  mColliders := [⟨r.mPosX + 28, r.mPosY + 5, c0.w, c0.h⟩,
                                 ⟨r.mPosX + 2, r.mPosY + c0.h, c1.w, c1.h⟩] },
          { g with endGame := true })
      else
        ({ r with mVelY := min r.mVelY 10, mPosY := r.mPosY + min r.mVelY 10,
                  mColliders := [⟨r.mPosX + 28, r.mPosY + min r.mVelY 10 + 5, c0.w, c0.h⟩,
                                 ⟨r.mPosX + 2, r.mPosY + min r.mVelY 10 + c0.h, c1.w, c1.h⟩] },
          g) := by
  obtain ⟨px, py, vx, vy, rv, cols⟩ := r
  simp only at hc
  subst hc
  by_cases hv : 10 ≤ vy
  · have hmin : min vy 10 = 10 := min_eq_right hv
    simp only [Roach.move, intCast_ge_GRAVITY, hv, if_true, toInt_GRAVITY, hmin,
      Roach.shiftColliders, Roach.ROACH_HEIGHT, SCREEN_HEIGHT]
    split_ifs <;> simp
  · have hmin : min vy 10 = vy := min_eq_left (by omega)
    simp only [Roach.move, intCast_ge_GRAVITY, hv, if_false, hmin,
      Roach.shiftColliders, Roach.ROACH_HEIGHT, SCREEN_HEIGHT]
    split_ifs <;> simp

theorem Roach_move_vel (r : Roach) (sh li : List SDL_Rect) (g : Globals) :
    (Roach.move r sh li g).1.mVelY = min r.mVelY 10
    ∧ (Roach.move r sh li g).1.mRVel = r.mRVel := by
  by_cases hv : 10 ≤ r.mVelY
  · have hmin : min r.mVelY 10 = 10 := min_eq_right hv
    simp only [Roach.move, intCast_ge_GRAVITY, hv, if_true, toInt_GRAVITY, hmin]
    split_ifs <;> simp [Roach_shiftColliders_fields]
  · have hmin : min r.mVelY 10 = r.mVelY := min_eq_left (by omega)
    simp only [Roach.move, intCast_ge_GRAVITY, hv, if_false, hmin]
    split_ifs <;> simp [Roach_shiftColliders_fields]

/-- Claim C3: let `v' = min v 10` be the clamped velocity of a flyer at
height `y`.  If `y + v' < 0` or `y + v' + ROACH_HEIGHT > SCREEN_HEIGHT`,
then after `Roach::move` the height is `y` again, the two collision boxes
are those of height `y`, and `endGame` is `true`; otherwise the height is
`y + v'` (the boxes follow) and `endGame` is left as it was. -/
theorem Roach_move_boundary (r : Roach) (sh li : List SDL_Rect) (g : Globals)
    (c0 c1 : SDL_Rect) (hc : r.mColliders = [c0, c1]) :
    (r.mPosY + min r.mVelY 10 < 0
        ∨ r.mPosY + min r.mVelY 10 + Roach.ROACH_HEIGHT > SCREEN_HEIGHT →
      (Roach.move r sh li g).1.mPosY = r.mPosY
      ∧ (Roach.move r sh li g).1.mColliders =
          [⟨r.mPosX + 28, r.mPosY + 5, c0.w, c0.h⟩, ⟨r.mPosX + 2, r.mPosY + c0.h, c1.w, c1.h⟩]
      ∧ (Roach.move r sh li g).2.endGame = true)
    ∧ (¬ (r.mPosY + min r.mVelY 10 < 0
        ∨ r.mPosY + min r.mVelY 10 + Roach.ROACH_HEIGHT > SCREEN_HEIGHT) →
      (Roach.move r sh li g).1.mPosY = r.mPosY + min r.mVelY 10
      ∧ (Roach.move r sh li g).1.mColliders =
          [⟨r.mPosX + 28, r.mPosY + min r.mVelY 10 + 5, c0.w, c0.h⟩,
           ⟨r.mPosX + 2, r.mPosY + min r.mVelY 10 + c0.h, c1.w, c1.h⟩]
      ∧ (Roach.move r sh li g).2.endGame = g.endGame) := by
  rw [Roach_move_two r sh li g c0 c1 hc]
  simp only [Roach.ROACH_HEIGHT, SCREEN_HEIGHT]
  constructor
  · intro h
    rw [if_pos h]
    exact ⟨rfl, rfl, rfl⟩
  · intro h
    rw [if_neg h]
    exact ⟨rfl, rfl, rfl⟩

/-- A flyer at height 470 falling at speed 12: the clamped step of 10 would
end below the screen, so `Roach::move` reverts it and raises `endGame`. -/
theorem Roach_move_boundary_witness :
    (470 + min 12 10 + Roach.ROACH_HEIGHT > SCREEN_HEIGHT)
    ∧ (Roach.move { Roach.new with mPosY := 470, mVelY := 12 } [] [] (Globals.start fun _ => 0)).1.mPosY
        = 470
    ∧ (Roach.move { Roach.new with mPosY := 470, mVelY := 12 } [] [] (Globals.start fun _ => 0)).1.mColliders
        = [⟨302, 475, 66, 33⟩, ⟨276, 503, 91, 17⟩]
    ∧ (Roach.move { Roach.new with mPosY := 470, mVelY := 12 } [] [] (Globals.start fun _ => 0)).2.endGame
        = true :=
  ⟨by decide,
   (Roach_move_boundary { Roach.new with mPosY := 470, mVelY := 12 } [] [] (Globals.start fun _ => 0)
      ⟨302, 216, 66, 33⟩ ⟨276, 244, 91, 17⟩ (by rfl)).1 (Or.inr (by decide))⟩

/-- Claim C4, counterexample: a flyer at height 0 with downward velocity 1
(positive, `y` grows downward) is moved to height 1 by `Roach::move`, and
`endGame` stays `false`: nothing is reverted, no flag is raised. -/
theorem Roach_move_top_downward_counterexample :
    (Roach.shiftColliders { Roach.new with mPosY := 0, mVelY := 1 }).mPosY = 0
    ∧ 0 < (Roach.shiftColliders { Roach.new with mPosY := 0, mVelY := 1 }).mVelY
    ∧ (Roach.move (Roach.shiftColliders { Roach.new with mPosY := 0, mVelY := 1 })
        (Roach.collidersAt 0) (Roach.collidersAt 0) (Globals.start fun _ => 0)).1.mPosY = 1
    ∧ (Roach.move (Roach.shiftColliders { Roach.new with mPosY := 0, mVelY := 1 })
        (Roach.collidersAt 0) (Roach.collidersAt 0) (Globals.start fun _ => 0)).2.endGame = false
    ∧ ¬ ((Roach.move (Roach.shiftColliders { Roach.new with mPosY := 0, mVelY := 1 })
          (Roach.collidersAt 0) (Roach.collidersAt 0) (Globals.start fun _ => 0)).1.mPosY = 0
        ∧ (Roach.move (Roach.shiftColliders { Roach.new with mPosY := 0, mVelY := 1 })
          (Roach.collidersAt 0) (Roach.collidersAt 0) (Globals.start fun _ => 0)).2.endGame = true) := by
  rw [Roach_move_two _ _ _ _ ⟨302, 5, 66, 33⟩ ⟨276, 33, 91, 17⟩ (by rfl)]
  refine ⟨by rfl, by decide, by rfl, by rfl, ?_⟩
  rintro ⟨h, -⟩
  exact absurd h (by decide)

/-- Claim C4, amended: a flyer at height 0 whose velocity on the next tick
is upward (negative) is put back by `Roach::move`: the height is still 0
after the call and `endGame` is `true`. -/
theorem Roach_move_top_upward (r : Roach) (sh li : List SDL_Rect) (g : Globals)
    (hy : r.mPosY = 0) (hv : r.mVelY < 0) :
    (Roach.move r sh li g).1.mPosY = 0 ∧ (Roach.move r sh li g).2.endGame = true := by
  have hmin : min r.mVelY 10 = r.mVelY := min_eq_left (by omega)
  have hv' : ¬ (10 ≤ r.mVelY) := by omega
  have hlt : r.mPosY + r.mVelY < 0 := by omega
  simp only [Roach.move, intCast_ge_GRAVITY, hv', if_false, Roach_shiftColliders_fields, hlt,
    true_or, if_true]
  constructor
  · omega
  · trivial

/-- A flyer at height 0 rising at speed 4: the step is reverted and
`endGame` is raised. -/
theorem Roach_move_top_upward_witness :
    (Roach.move (Roach.shiftColliders { Roach.new with mPosY := 0, mVelY := -4 })
        (Roach.collidersAt 0) (Roach.collidersAt 0) (Globals.start fun _ => 0)).1.mPosY = 0
    ∧ (Roach.move (Roach.shiftColliders { Roach.new with mPosY := 0, mVelY := -4 })
        (Roach.collidersAt 0) (Roach.collidersAt 0) (Globals.start fun _ => 0)).2.endGame = true :=
  Roach_move_top_upward (Roach.shiftColliders { Roach.new with mPosY := 0, mVelY := -4 })
    (Roach.collidersAt 0) (Roach.collidersAt 0) (Globals.start fun _ => 0) (by rfl) (by decide)

/-! ## Flyer: velocity without input -/

theorem Roach_gravitate_fields (r : Roach) :
    r.gravitate.mRVel = r.mRVel + 8 / 1000
    ∧ r.gravitate.mVelY = toInt (r.mRVel + 8 / 1000) := by
  simp [Roach.gravitate]

theorem Roach_gravitate_iterate (n : Nat) (r : Roach) :
    (Roach.gravitate^[n + 1] r).mRVel = r.mRVel + (n + 1 : ℚ) * (8 / 1000)
    ∧ (Roach.gravitate^[n + 1] r).mVelY = toInt (r.mRVel + (n + 1 : ℚ) * (8 / 1000)) := by
  induction n with
  | zero => simp [Roach.gravitate]
  | succ k ih =>
    rw [Function.iterate_succ_apply']
    have h := Roach_gravitate_fields (Roach.gravitate^[k + 1] r)
    rw [h.1, h.2, ih.1]
    have e : r.mRVel + ((k : ℚ) + 1) * (8 / 1000) + 8 / 1000
        = r.mRVel + (((k + 1 : Nat) : ℚ) + 1) * (8 / 1000) := by
      push_cast
      ring
    rw [e]
    exact ⟨rfl, rfl⟩

theorem moveVelocities_bounds (cs : List RoachCall) :
    ∀ (r : Roach) (g : Globals), r.mVelY ≤ toInt r.mRVel →
      (∀ v ∈ moveVelocities r g cs, min r.mVelY 10 ≤ v ∧ v ≤ 10)
      ∧ List.Pairwise (· ≤ ·) (moveVelocities r g cs) := by
  induction cs with
  | nil =>
    intro r g _
    simp [moveVelocities]
  | cons c cs ih =>
    intro r g h
    cases c with
    | gravitate =>
      have hg := Roach_gravitate_fields r
      have hle : toInt r.mRVel ≤ toInt (r.mRVel + 8 / 1000) :=
        toInt_mono (by linarith)
      have hinv : r.gravitate.mVelY ≤ toInt r.gravitate.mRVel := by
        rw [hg.1, hg.2]
      obtain ⟨hb, hp⟩ := ih r.gravitate g hinv
      simp only [moveVelocities]
      refine ⟨fun v hv => ?_, hp⟩
      obtain ⟨h1, h2⟩ := hb v hv
      rw [hg.2] at h1
      exact ⟨le_trans (min_le_min_right 10 (h.trans hle)) h1, h2⟩
    | move =>
      have hm := Roach_move_vel r r.mColliders r.mColliders g
      have hinv : (r.move r.mColliders r.mColliders g).1.mVelY
          ≤ toInt (r.move r.mColliders r.mColliders g).1.mRVel := by
        rw [hm.1, hm.2]
        exact (min_le_left _ _).trans h
      obtain ⟨hb, hp⟩ :=
        ih (r.move r.mColliders r.mColliders g).1 (r.move r.mColliders r.mColliders g).2 hinv
      rw [hm.1] at hb
      simp only [moveVelocities, List.mem_cons, List.pairwise_cons, hm.1]
      refine ⟨?_, ?_, hp⟩
      · rintro v (rfl | hv)
        · exact ⟨le_rfl, min_le_right _ _⟩
        · obtain ⟨h1, h2⟩ := hb v hv
          exact ⟨by simpa using h1, h2⟩
      · intro v hv
        have := (hb v hv).1
        simpa using this

/-- Claim C5, counterexample: a new flyer, 157 calls of `gravitate`
(accumulator 1.256, velocity 1), then a press of the space bar (accumulator
`-50/11`, velocity still 1).  From this state and with no further input, the
calls `move`, `gravitate`, `move` add the velocities 1 and then -4: the
velocity decreases. -/
theorem moveVelocities_counterexample :
    moveVelocities (Roach.handleEvent (Roach.gravitate^[157] Roach.new) pressSpace)
        (Globals.start fun _ => 0) [RoachCall.move, RoachCall.gravitate, RoachCall.move]
      = [1, -4]
    ∧ ¬ List.Pairwise (· ≤ ·)
        (moveVelocities (Roach.handleEvent (Roach.gravitate^[157] Roach.new) pressSpace)
          (Globals.start fun _ => 0) [RoachCall.move, RoachCall.gravitate, RoachCall.move]) := by
  have hit := Roach_gravitate_iterate 156 Roach.new
  have hr0 : Roach.new.mRVel = 0 := rfl
  have hR : (Roach.gravitate^[157] Roach.new).mRVel = 157 / 125 := by
    rw [hit.1, hr0]; norm_num
  have hV : (Roach.gravitate^[157] Roach.new).mVelY = 1 := by
    rw [hit.2, hr0]; norm_num [toInt]
  have hpress : (Roach.handleEvent (Roach.gravitate^[157] Roach.new) pressSpace).mRVel = -50 / 11
      ∧ (Roach.handleEvent (Roach.gravitate^[157] Roach.new) pressSpace).mVelY = 1 := by
    have hge : (Roach.gravitate^[157] Roach.new).mRVel ≥ Roach.GRAVITY / 8 := by
      rw [hR]; norm_num [Roach.GRAVITY]
    simp only [Roach.handleEvent, pressSpace, hge, and_self, if_true, hV]
    norm_num [Roach.GRAVITY]
  have hlist : moveVelocities (Roach.handleEvent (Roach.gravitate^[157] Roach.new) pressSpace)
        (Globals.start fun _ => 0) [RoachCall.move, RoachCall.gravitate, RoachCall.move]
      = [1, -4] := by
    simp only [moveVelocities, Roach_move_vel, Roach_gravitate_fields, hpress.1, hpress.2]
    have h4 : toInt (-50 / 11 + 8 / 1000) = -4 := by
      unfold toInt
      rw [if_neg (by norm_num), Int.ceil_eq_iff]
      norm_num
    rw [h4]
    rfl
  refine ⟨hlist, ?_⟩
  rw [hlist]
  decide

/-- Claim C5, amended: for every flyer whose stored velocity does not
exceed the integer part of its accumulator (`mVelY ≤ (int)mRVel`, which
holds for a new flyer and after every `gravitate`) and every sequence of
`gravitate` and `move` calls without input, with the accumulator in exact
arithmetic: the velocities the successive `move` calls add to the height
are non-decreasing, none exceeds 10, and once a velocity is 10 every later
one is 10. -/
theorem moveVelocities_monotone (r : Roach) (g : Globals) (cs : List RoachCall)
    (h : r.mVelY ≤ toInt r.mRVel) :
    List.Pairwise (· ≤ ·) (moveVelocities r g cs)
    ∧ (∀ v ∈ moveVelocities r g cs, v ≤ 10)
    ∧ List.Pairwise (fun a b => a = 10 → b = 10) (moveVelocities r g cs) := by
  obtain ⟨hb, hp⟩ := moveVelocities_bounds cs r g h
  refine ⟨hp, fun v hv => (hb v hv).2, ?_⟩
  have hp' : List.Pairwise (fun a b => a ≤ b ∧ b ≤ 10) (moveVelocities r g cs) := by
    rw [List.pairwise_and_iff]
    refine ⟨hp, ?_⟩
    rw [List.pairwise_iff_forall_sublist]
    intro a b hab
    exact (hb b (hab.subset (by simp))).2
  refine hp'.imp ?_
  intro a b hab ha
  omega

/-- A new flyer (velocity 0, accumulator 0) run through two ticks. -/
theorem moveVelocities_monotone_witness :
    Roach.new.mVelY ≤ toInt Roach.new.mRVel
    ∧ List.Pairwise (· ≤ ·)
        (moveVelocities Roach.new (Globals.start fun _ => 0)
          [RoachCall.gravitate, RoachCall.move, RoachCall.gravitate, RoachCall.move]) :=
  ⟨by simp [Roach.new, Roach.shiftColliders, toInt],
   (moveVelocities_monotone Roach.new (Globals.start fun _ => 0)
      [RoachCall.gravitate, RoachCall.move, RoachCall.gravitate, RoachCall.move]
      (by simp [Roach.new, Roach.shiftColliders, toInt])).1⟩

/-! ## Flyer: input -/

/-- Claim C6: for a flyer whose accumulator is at least `GRAVITY / 8`, the
events press, release, press of the space bar (no tick in between) leave
the accumulator at `-GRAVITY / 2.2 + GRAVITY / 8`, which is not the impulse
value `-GRAVITY / 2.2`: the second press has no effect.  In general a
non-repeated key-down of the space bar changes the accumulator only if the
accumulator is at least `GRAVITY / 8`, and a key-down flagged as
auto-repeat changes nothing. -/
theorem Roach_handleEvent_rearm :
    (∀ r : Roach, r.mRVel ≥ Roach.GRAVITY / 8 →
      (((r.handleEvent pressSpace).handleEvent releaseSpace).handleEvent pressSpace).mRVel
          = -Roach.GRAVITY / (22 / 10) + Roach.GRAVITY / 8
      ∧ (((r.handleEvent pressSpace).handleEvent releaseSpace).handleEvent pressSpace).mRVel
          ≠ -Roach.GRAVITY / (22 / 10)
      ∧ ((r.handleEvent pressSpace).handleEvent releaseSpace).handleEvent pressSpace
          = (r.handleEvent pressSpace).handleEvent releaseSpace)
    ∧ (∀ (r : Roach) (e : SDL_Event),
        e.type = SDL_KEYDOWN → e.key_repeat = 0 → e.sym = SDLK_SPACE →
        (r.handleEvent e).mRVel ≠ r.mRVel → r.mRVel ≥ Roach.GRAVITY / 8)
    ∧ (∀ (r : Roach) (e : SDL_Event),
        e.type = SDL_KEYDOWN → e.key_repeat ≠ 0 → r.handleEvent e = r) := by
  refine ⟨?_, ?_, ?_⟩
  · intro r hr
    have h1 : (r.handleEvent pressSpace).mRVel = -Roach.GRAVITY / (22 / 10) := by
      simp only [Roach.handleEvent, pressSpace, hr, and_self, if_true]
    have h2 : ((r.handleEvent pressSpace).handleEvent releaseSpace).mRVel
        = -Roach.GRAVITY / (22 / 10) + Roach.GRAVITY / 8 := by
      have hrel : ∀ q : Roach, (q.handleEvent releaseSpace).mRVel = q.mRVel + Roach.GRAVITY / 8 := by
        intro q
        have hne : ¬ (SDL_KEYUP = SDL_KEYDOWN) := by decide
        simp only [Roach.handleEvent, releaseSpace, hne, false_and, if_false, and_self, if_true]
      rw [hrel, h1]
    have hlt : ¬ (((r.handleEvent pressSpace).handleEvent releaseSpace).mRVel
        ≥ Roach.GRAVITY / 8) := by
      rw [h2]; norm_num [Roach.GRAVITY]
    have h3 : ((r.handleEvent pressSpace).handleEvent releaseSpace).handleEvent pressSpace
        = (r.handleEvent pressSpace).handleEvent releaseSpace := by
      have hne : ¬ (SDL_KEYDOWN = SDL_KEYUP) := by decide
      generalize (r.handleEvent pressSpace).handleEvent releaseSpace = q at hlt ⊢
      simp only [Roach.handleEvent, pressSpace, hlt, and_false, if_false, hne, false_and]
    refine ⟨by rw [h3, h2], ?_, h3⟩
    rw [h3, h2]
    norm_num [Roach.GRAVITY]
  · intro r e ht hk hs hne
    by_contra hlt
    apply hne
    have hne' : ¬ (SDL_KEYDOWN = SDL_KEYUP) := by decide
    simp only [Roach.handleEvent, ht, hk, hlt, and_false, if_false, hne', false_and]
  · intro r e ht hk
    have hne' : ¬ (SDL_KEYDOWN = SDL_KEYUP) := by decide
    simp only [Roach.handleEvent, ht, hk, false_and, and_false, if_false, hne']

/-- A flyer that has fallen for 157 milliseconds (accumulator 1.256):
press, release, press leaves the accumulator at `-50/11 + 5/4`. -/
theorem Roach_handleEvent_rearm_witness :
    ((((Roach.gravitate^[157] Roach.new).handleEvent pressSpace).handleEvent
        releaseSpace).handleEvent pressSpace).mRVel = -Roach.GRAVITY / (22 / 10) + Roach.GRAVITY / 8
    ∧ (Roach.new.handleEvent ⟨SDL_KEYDOWN, 1, SDLK_SPACE⟩ = Roach.new) :=
  ⟨(Roach_handleEvent_rearm.1 (Roach.gravitate^[157] Roach.new) (by
      rw [(Roach_gravitate_iterate 156 Roach.new).1]
      norm_num [Roach.new, Roach.shiftColliders, Roach.GRAVITY])).1,
   Roach_handleEvent_rearm.2.2 Roach.new ⟨SDL_KEYDOWN, 1, SDLK_SPACE⟩ rfl (by decide)⟩

/-! ## Obstacles -/

theorem toInt_one : toInt 1 = 1 := by
  simp [toInt]

theorem intCast_ge_one (v : Int) : ((v : ℚ) ≥ 1) ↔ 1 ≤ v := by
  rw [ge_iff_le, ← Int.cast_one, Int.cast_le]

theorem collidersAt_eq (y : Int) :
    Roach.collidersAt y = [⟨302, y + 5, 66, 33⟩, ⟨276, y + 33, 91, 17⟩] := by
  simp [Roach.collidersAt, Roach.new, Roach.shiftColliders, SCREEN_WIDTH, Roach.ROACH_WIDTH]

theorem Shelf_randomise_fields (s : Shelf) (g : Globals) :
    (Shelf.randomise s g).1.mPosX = s.mPosX ∧ (Shelf.randomise s g).1.mVelX = s.mVelX
    ∧ (Shelf.randomise s g).1.mColliders = s.mColliders := by
  simp [Shelf.randomise]

theorem Shelf_clamp (s : Shelf) :
    (if (s.mVelX : ℚ) ≥ Shelf.SHELF_SPEED then { s with mVelX := toInt Shelf.SHELF_SPEED } else s)
      = { s with mVelX := min s.mVelX 1 } := by
  simp only [Shelf.SHELF_SPEED, intCast_ge_one, toInt_one]
  split_ifs with h
  · rw [min_eq_right h]
  · rw [min_eq_left (by omega)]

theorem collidersAt_clear (y : Int) (B : List SDL_Rect) (hB : ∀ b ∈ B, 368 ≤ b.x) :
    checkCollision (Roach.collidersAt y) B = false := by
  rw [← Bool.not_eq_true, checkCollision_iff, collidersAt_eq]
  rintro ⟨a, ha, b, hb, -, h2, -, -⟩
  have := hB b hb
  simp only [List.mem_cons, List.mem_singleton, List.not_mem_nil, or_false] at ha
  rcases ha with rfl | rfl <;> simp only at h2 <;> omega

/-- Claim C7: for a shelf whose collision box has the dimensions given by
the constructor (141 by 480), any velocity (in particular `v ≥ 0`), any
random draw and the collider set of a flyer at its fixed `x` and any
height `y`: if after the leftward step `mPosX + SHELF_WIDTH < 0`, then
`Shelf::move` returns with `mPosX = SCREEN_WIDTH` exactly (the collision
check after the recycle does not fire) and the `x` of the collision box is
640. -/
theorem Shelf_move_recycle (s : Shelf) (y : Int) (g : Globals)
    (hdim : s.mColliders.map (fun c => (c.w, c.h)) = [(141, 480)])
    (hoff : s.mPosX - min s.mVelX 1 + Shelf.SHELF_WIDTH < 0) :
    (Shelf.move s (Roach.collidersAt y) g).1.mPosX = SCREEN_WIDTH
    ∧ (Shelf.move s (Roach.collidersAt y) g).1.mColliders.map (fun c => c.x) = [640] := by
  obtain ⟨px, py, vx, vy, rv, cols⟩ := s
  simp only at hdim hoff
  obtain ⟨c, rfl, hc⟩ : ∃ c, cols = [c] ∧ (c.w, c.h) = (141, 480) := by
    cases cols with
    | nil => simp at hdim
    | cons c cs =>
      cases cs with
      | nil => exact ⟨c, rfl, by simpa using hdim⟩
      | cons d ds => simp at hdim
  simp only [Prod.mk.injEq] at hc
  obtain ⟨hw, hh⟩ := hc
  unfold Shelf.move
  rw [Shelf_clamp]
  simp only [Shelf.shiftColliders, Shelf_randomise_fields, Shelf.shiftFrom, hoff, if_true, hw]
  have hclear : ∀ Y : Int, checkCollision (Roach.collidersAt y)
      [⟨SCREEN_WIDTH + (Shelf.SHELF_WIDTH - 141), Y, 141, c.h⟩] = false :=
    fun Y => collidersAt_clear y _ (by simp [SCREEN_WIDTH, Shelf.SHELF_WIDTH])
  simp only [hclear, Bool.false_eq_true, if_false, List.map_cons, List.map_nil]
  simp [SCREEN_WIDTH, Shelf.SHELF_WIDTH]

/-- A shelf built by the constructor and put at `x = -141`, moving at
speed 1: the step takes it to `-142`, fully off the left edge, and
`Shelf::move` recycles it to `x = 640`. -/
theorem Shelf_move_recycle_witness :
    (-141 - min 1 1 + Shelf.SHELF_WIDTH < 0)
    ∧ (Shelf.move { (Shelf.new (Globals.start fun _ => 7)).1 with mPosX := -141, mVelX := 1 }
        (Roach.collidersAt 211) (Globals.start fun _ => 7)).1.mPosX = SCREEN_WIDTH :=
  ⟨by decide,
   (Shelf_move_recycle { (Shelf.new (Globals.start fun _ => 7)).1 with mPosX := -141, mVelX := 1 }
      211 (Globals.start fun _ => 7) (by rfl) (by decide)).1⟩

/-- Claim C8, counterexample: when `rand()` returns 0, `Shelf::randomise`
sets `mPosY = 100`, which lies in the top third of the screen (below
`SCREEN_HEIGHT / 3 = 160`). -/
theorem Shelf_randomise_counterexample :
    (Shelf.randomise (Shelf.new (Globals.start fun _ => 0)).1 (Globals.start fun _ => 0)).1.mPosY
      = 100
    ∧ ¬ (SCREEN_HEIGHT / 3
      ≤ (Shelf.randomise (Shelf.new (Globals.start fun _ => 0)).1 (Globals.start fun _ => 0)).1.mPosY) := by
  constructor
  · rfl
  · decide

/-- Claim C8, amended: for every random draw, the height that
`Shelf::randomise` assigns satisfies `100 ≤ mPosY ≤ SCREEN_HEIGHT`: a draw
(modulo 481) below 160 is shifted by the fixed bias 100, so the values
100 to 159 of the top third remain possible. -/
theorem Shelf_randomise_bounds (s : Shelf) (g : Globals) :
    100 ≤ (Shelf.randomise s g).1.mPosY ∧ (Shelf.randomise s g).1.mPosY ≤ SCREEN_HEIGHT := by
  simp only [Shelf.randomise, rand, SCREEN_HEIGHT]
  split_ifs <;> omega

theorem Lights_randomise_fields (l : Lights) (shelf_y : Int) (g : Globals) :
    (Lights.randomise l shelf_y g).1.mPosX = l.mPosX
    ∧ (Lights.randomise l shelf_y g).1.mVelX = l.mVelX
    ∧ (Lights.randomise l shelf_y g).1.mColliders = l.mColliders := by
  simp only [Lights.randomise]
  split_ifs <;> simp

theorem Lights_shiftColliders_fields (l : Lights) :
    l.shiftColliders.mPosX = l.mPosX ∧ l.shiftColliders.mPosY = l.mPosY
    ∧ l.shiftColliders.mVelX = l.mVelX ∧ l.shiftColliders.mVelY = l.mVelY
    ∧ l.shiftColliders.mRVel = l.mRVel := by
  unfold Lights.shiftColliders
  split <;> simp

theorem Lights_clamp (l : Lights) :
    (if (l.mVelX : ℚ) ≥ Lights.LIGHTS_SPEED then { l with mVelX := toInt Lights.LIGHTS_SPEED } else l)
      = { l with mVelX := min l.mVelX 1 } := by
  simp only [Lights.LIGHTS_SPEED, intCast_ge_one, toInt_one]
  split_ifs with h
  · rw [min_eq_right h]
  · rw [min_eq_left (by omega)]

/-- Claim C9: while the paired shelf is at `x ≤ SCREEN_WIDTH / 2`,
`Lights::move` never recycles, whatever the state of the lights (also when
they are fully off the left edge) and whatever the flyer colliders:
`mPosY` is unchanged, no random number is drawn, and `mPosX` after the
call is `x - min v 1` when the stepped lights do not collide with the
flyer and `x` when they do. -/
theorem Lights_move_gate (l : Lights) (shelf_x shelf_y : Int) (roach : List SDL_Rect)
    (g : Globals) (hx : shelf_x ≤ SCREEN_WIDTH / 2) :
    (Lights.move l shelf_x shelf_y roach g).1.mPosY = l.mPosY
    ∧ (Lights.move l shelf_x shelf_y roach g).2.randCalls = g.randCalls
    ∧ (Lights.move l shelf_x shelf_y roach g).2.randSeq = g.randSeq
    ∧ ((Lights.move l shelf_x shelf_y roach g).1.mPosX = l.mPosX - min l.mVelX 1
        ∨ (Lights.move l shelf_x shelf_y roach g).1.mPosX = l.mPosX)
    ∧ (Lights.move l shelf_x shelf_y roach g).1.mPosX =
        if checkCollision roach
            (Lights.shiftColliders { l with mPosX := l.mPosX - min l.mVelX 1 }).mColliders
        then l.mPosX else l.mPosX - min l.mVelX 1 := by
  have hgate : ¬ (shelf_x > SCREEN_WIDTH / 2) := not_lt.2 hx
  have hcols :
      (Lights.shiftColliders
        { l with mVelX := min l.mVelX 1, mPosX := l.mPosX - min l.mVelX 1 }).mColliders
      = (Lights.shiftColliders { l with mPosX := l.mPosX - min l.mVelX 1 }).mColliders := by
    unfold Lights.shiftColliders
    split <;> rename_i h <;> simp only at h <;> simp [h]
  unfold Lights.move
  rw [Lights_clamp]
  simp only [hgate, and_false, if_false, hcols]
  split_ifs with hcol
  · simp [Lights_shiftColliders_fields]
  · simp [Lights_shiftColliders_fields]

/-- Lights already fully off the left edge (`x = -200`) whose paired shelf
is at `x = 320`: `Lights::move` does not recycle them. -/
theorem Lights_move_gate_witness :
    ((320 : Int) ≤ SCREEN_WIDTH / 2)
    ∧ (Lights.move { (Lights.new (Globals.start fun _ => 7)).1 with mPosX := -200, mVelX := 1 }
        320 300 (Roach.collidersAt 211) (Globals.start fun _ => 7)).1.mPosY = 0
    ∧ (Lights.move { (Lights.new (Globals.start fun _ => 7)).1 with mPosX := -200, mVelX := 1 }
        320 300 (Roach.collidersAt 211) (Globals.start fun _ => 7)).2.randCalls = 0 :=
  ⟨by decide,
   (Lights_move_gate { (Lights.new (Globals.start fun _ => 7)).1 with mPosX := -200, mVelX := 1 }
      320 300 (Roach.collidersAt 211) (Globals.start fun _ => 7) (by decide)).1,
   (Lights_move_gate { (Lights.new (Globals.start fun _ => 7)).1 with mPosX := -200, mVelX := 1 }
      320 300 (Roach.collidersAt 211) (Globals.start fun _ => 7) (by decide)).2.1⟩

/-- Claim C10, counterexample: with the draw 0 and the paired shelf at
`y = 300`, `Lights::randomise` sets `mPosY = -280`: the bottom of the
lights is at 200, only 100 above the shelf top, not 200. -/
theorem Lights_randomise_counterexample :
    (Lights.randomise (Lights.new (Globals.start fun _ => 0)).1 300
        (Globals.start fun _ => 0)).1.mPosY = -280
    ∧ ¬ ((Lights.randomise (Lights.new (Globals.start fun _ => 0)).1 300
        (Globals.start fun _ => 0)).1.mPosY + Lights.LIGHTS_HEIGHT ≤ 300 - 200) := by
  constructor
  · rfl
  · decide

/-- Claim C10, amended: for every random draw and every height of the
paired shelf, after `Lights::randomise(shelf_y)` the bottom of the lights
keeps a clearance of at least 100 from the shelf top:
`mPosY + LIGHTS_HEIGHT ≤ shelf_y - 100`. -/
theorem Lights_randomise_clearance (l : Lights) (shelf_y : Int) (g : Globals) :
    (Lights.randomise l shelf_y g).1.mPosY + Lights.LIGHTS_HEIGHT ≤ shelf_y - 100 := by
  simp only [Lights.randomise, rand, Lights.LIGHTS_HEIGHT, SCREEN_HEIGHT]
  split_ifs <;> simp only [] <;> omega

/-! ## Obstacles: revert and flag on a hit -/

theorem Shelf_move_atCheck (s : Shelf) (roach : List SDL_Rect) (g : Globals) :
    Shelf.move s roach g =
      if checkCollision roach (Shelf.atCheck s g).1.mColliders then
        (Shelf.shiftColliders
            { (Shelf.atCheck s g).1 with
                mPosX := (Shelf.atCheck s g).1.mPosX + (Shelf.atCheck s g).1.mVelX },
          { (Shelf.atCheck s g).2 with endGame := true })
      else Shelf.atCheck s g := rfl

theorem Lights_move_atCheck (l : Lights) (sx sy : Int) (roach : List SDL_Rect) (g : Globals) :
    Lights.move l sx sy roach g =
      if checkCollision roach (Lights.atCheck l sx sy g).1.mColliders then
        (Lights.shiftColliders
            { (Lights.atCheck l sx sy g).1 with
                mPosX := (Lights.atCheck l sx sy g).1.mPosX + (Lights.atCheck l sx sy g).1.mVelX },
          { (Lights.atCheck l sx sy g).2 with endGame := true })
      else Lights.atCheck l sx sy g := rfl

theorem Shelf_atCheck_eq (s : Shelf) (g : Globals) :
    Shelf.atCheck s g =
      if s.mPosX - min s.mVelX 1 + Shelf.SHELF_WIDTH < 0 then
        (Shelf.shiftColliders (Shelf.randomise
            { s with mVelX := min s.mVelX 1, mPosX := SCREEN_WIDTH,
                     mColliders := Shelf.shiftFrom (s.mPosX - min s.mVelX 1) s.mPosY 0 s.mColliders } g).1,
          (rand g).2)
      else
        ({ s with mVelX := min s.mVelX 1, mPosX := s.mPosX - min s.mVelX 1,
                  mColliders := Shelf.shiftFrom (s.mPosX - min s.mVelX 1) s.mPosY 0 s.mColliders }, g) := by
  unfold Shelf.atCheck
  rw [Shelf_clamp]
  rfl

theorem Lights_atCheck_eq (l : Lights) (sx sy : Int) (g : Globals) :
    Lights.atCheck l sx sy g =
      if l.mPosX - min l.mVelX 1 + Lights.LIGHTS_WIDTH < 0 ∧ sx > SCREEN_WIDTH / 2 then
        (Lights.shiftColliders (Lights.randomise
            { Lights.shiftColliders
                { l with mVelX := min l.mVelX 1, mPosX := l.mPosX - min l.mVelX 1 } with
              mPosX := sx + 20 } sy g).1,
          (rand g).2)
      else
        (Lights.shiftColliders
          { l with mVelX := min l.mVelX 1, mPosX := l.mPosX - min l.mVelX 1 }, g) := by
  unfold Lights.atCheck
  rw [Lights_clamp]
  simp only [Lights_shiftColliders_fields]
  rfl

theorem Shelf_dims_single (cols : List SDL_Rect)
    (hdim : cols.map (fun c => (c.w, c.h)) = [(141, 480)]) :
    ∃ c, cols = [c] ∧ c.w = 141 ∧ c.h = 480 := by
  cases cols with
  | nil => simp at hdim
  | cons c cs =>
    cases cs with
    | nil =>
      simp only [List.map_cons, List.map_nil, List.cons.injEq, Prod.mk.injEq, and_true] at hdim
      exact ⟨c, rfl, hdim.1, hdim.2⟩
    | cons d ds => simp at hdim

/-- Claim C11, counterexample: lights fully off the left edge (`x = -200`,
speed 1) whose paired shelf is at `x = 321`, `y = 300`, with the draw 0 and a
flyer at the legal height 150.  `Lights::move` recycles the lights to
`x = 341`, the lamp box then overlaps the flyer, the collision is detected,
and the call returns with `mPosX = 342`, not the `-200` it started from. -/
theorem Lights_move_hit_counterexample :
    checkCollision (Roach.collidersAt 150)
        (Lights.atCheck { (Lights.new (Globals.start fun _ => 0)).1 with mPosX := -200, mVelX := 1 }
          321 300 (Globals.start fun _ => 0)).1.mColliders = true
    ∧ (Lights.move { (Lights.new (Globals.start fun _ => 0)).1 with mPosX := -200, mVelX := 1 }
        321 300 (Roach.collidersAt 150) (Globals.start fun _ => 0)).1.mPosX = 342
    ∧ (Lights.move { (Lights.new (Globals.start fun _ => 0)).1 with mPosX := -200, mVelX := 1 }
        321 300 (Roach.collidersAt 150) (Globals.start fun _ => 0)).1.mPosX
      ≠ ({ (Lights.new (Globals.start fun _ => 0)).1 with mPosX := -200, mVelX := 1 } : Lights).mPosX := by
  rw [Lights_move_atCheck, Lights_atCheck_eq]
  refine ⟨by rfl, by rfl, ?_⟩
  decide

theorem Shelf_move_hit (s : Shelf) (y : Int) (g : Globals)
    (hdim : s.mColliders.map (fun c => (c.w, c.h)) = [(141, 480)])
    (hcol : checkCollision (Roach.collidersAt y) (Shelf.atCheck s g).1.mColliders = true) :
    (Shelf.move s (Roach.collidersAt y) g).1.mPosX = s.mPosX
    ∧ (Shelf.move s (Roach.collidersAt y) g).1.mPosY = s.mPosY
    ∧ (Shelf.move s (Roach.collidersAt y) g).1.mColliders = [⟨s.mPosX, s.mPosY, 141, 480⟩]
    ∧ (Shelf.move s (Roach.collidersAt y) g).2.endGame = true := by
  obtain ⟨c, hc, hw, hh⟩ := Shelf_dims_single s.mColliders hdim
  rw [Shelf_move_atCheck, if_pos hcol]
  rw [Shelf_atCheck_eq] at hcol ⊢
  by_cases hoff : s.mPosX - min s.mVelX 1 + Shelf.SHELF_WIDTH < 0
  · exfalso
    rw [if_pos hoff] at hcol
    have hclear := collidersAt_clear y
      (Shelf.shiftColliders (Shelf.randomise
        { s with mVelX := min s.mVelX 1, mPosX := SCREEN_WIDTH,
                 mColliders := Shelf.shiftFrom (s.mPosX - min s.mVelX 1) s.mPosY 0 s.mColliders } g).1).mColliders
      (by
        simp only [Shelf.shiftColliders, Shelf_randomise_fields, hc, Shelf.shiftFrom, hw,
          SCREEN_WIDTH, Shelf.SHELF_WIDTH]
        simp)
    rw [hclear] at hcol
    exact Bool.false_ne_true hcol
  · rw [if_neg hoff]
    simp only [Shelf.shiftColliders, hc, Shelf.shiftFrom, hw, hh, Shelf.SHELF_WIDTH]
    refine ⟨by omega, trivial, ?_, trivial⟩
    simp

theorem Lights_move_hit (l : Lights) (sx sy : Int) (roach : List SDL_Rect) (g : Globals)
    (c0 c1 c2 : SDL_Rect) (hc : l.mColliders = [c0, c1, c2])
    (hcol : checkCollision roach (Lights.atCheck l sx sy g).1.mColliders = true) :
    (Lights.move l sx sy roach g).2.endGame = true
    ∧ (¬ (l.mPosX - min l.mVelX 1 + Lights.LIGHTS_WIDTH < 0 ∧ sx > SCREEN_WIDTH / 2) →
        (Lights.move l sx sy roach g).1.mPosX = l.mPosX
        ∧ (Lights.move l sx sy roach g).1.mPosY = l.mPosY
        ∧ (Lights.move l sx sy roach g).1.mColliders =
            [⟨l.mPosX + 46, l.mPosY, c0.w, c0.h⟩, ⟨l.mPosX, l.mPosY + c0.h, c1.w, c1.h⟩,
             ⟨l.mPosX + 40, l.mPosY + c0.h + c1.h, c2.w, c2.h⟩]) := by
  rw [Lights_move_atCheck, if_pos hcol]
  refine ⟨rfl, fun hgate => ?_⟩
  rw [Lights_atCheck_eq, if_neg hgate]
  simp only [Lights.shiftColliders, hc]
  refine ⟨by omega, trivial, ?_⟩
  simp

/-- Claim C11, amended: when `Shelf::move` detects a collision with the
flyer (shelf box 141 by 480 as built by the constructor, flyer at its fixed
`x` and any height), the shelf returns with the `mPosX` and `mPosY` it had
before the call, its box placed at that position, and `endGame` true.  When
`Lights::move` detects a collision (any flyer collider set, any paired
shelf position), `endGame` is true, and if the call did not recycle the
lights (`x - min v 1 + LIGHTS_WIDTH ≥ 0` or shelf `x ≤ SCREEN_WIDTH / 2`)
the lights return with the `mPosX` and `mPosY` they had before the call and
their three boxes placed at that position. -/
theorem obstacle_move_hit :
    (∀ (s : Shelf) (y : Int) (g : Globals),
      s.mColliders.map (fun c => (c.w, c.h)) = [(141, 480)] →
      checkCollision (Roach.collidersAt y) (Shelf.atCheck s g).1.mColliders = true →
        (Shelf.move s (Roach.collidersAt y) g).1.mPosX = s.mPosX
        ∧ (Shelf.move s (Roach.collidersAt y) g).1.mPosY = s.mPosY
        ∧ (Shelf.move s (Roach.collidersAt y) g).1.mColliders = [⟨s.mPosX, s.mPosY, 141, 480⟩]
        ∧ (Shelf.move s (Roach.collidersAt y) g).2.endGame = true)
    ∧ (∀ (l : Lights) (sx sy : Int) (roach : List SDL_Rect) (g : Globals) (c0 c1 c2 : SDL_Rect),
      l.mColliders = [c0, c1, c2] →
      checkCollision roach (Lights.atCheck l sx sy g).1.mColliders = true →
        (Lights.move l sx sy roach g).2.endGame = true
        ∧ (¬ (l.mPosX - min l.mVelX 1 + Lights.LIGHTS_WIDTH < 0 ∧ sx > SCREEN_WIDTH / 2) →
            (Lights.move l sx sy roach g).1.mPosX = l.mPosX
            ∧ (Lights.move l sx sy roach g).1.mPosY = l.mPosY
            ∧ (Lights.move l sx sy roach g).1.mColliders =
                [⟨l.mPosX + 46, l.mPosY, c0.w, c0.h⟩, ⟨l.mPosX, l.mPosY + c0.h, c1.w, c1.h⟩,
                 ⟨l.mPosX + 40, l.mPosY + c0.h + c1.h, c2.w, c2.h⟩])) :=
  ⟨fun s y g hdim hcol => Shelf_move_hit s y g hdim hcol,
   fun l sx sy roach g c0 c1 c2 hc hcol => Lights_move_hit l sx sy roach g c0 c1 c2 hc hcol⟩

/-- A shelf at `x = 300`, `y = 200` and lights at `x = 300`, `y = -280`
(paired shelf at `x = 100`), both at speed 1, each run into a flyer in front
of them: both are put back to `x = 300` and `endGame` is raised. -/
theorem obstacle_move_hit_witness :
    ((Shelf.move { (Shelf.new (Globals.start fun _ => 0)).1 with mPosX := 300, mPosY := 200, mVelX := 1 }
        (Roach.collidersAt 211) (Globals.start fun _ => 0)).1.mPosX = 300
      ∧ (Shelf.move { (Shelf.new (Globals.start fun _ => 0)).1 with mPosX := 300, mPosY := 200, mVelX := 1 }
        (Roach.collidersAt 211) (Globals.start fun _ => 0)).2.endGame = true)
    ∧ ((Lights.move { (Lights.new (Globals.start fun _ => 0)).1 with mPosX := 300, mPosY := -280, mVelX := 1 }
        100 300 (Roach.collidersAt 150) (Globals.start fun _ => 0)).2.endGame = true
      ∧ (Lights.move { (Lights.new (Globals.start fun _ => 0)).1 with mPosX := 300, mPosY := -280, mVelX := 1 }
        100 300 (Roach.collidersAt 150) (Globals.start fun _ => 0)).1.mPosX = 300) :=
  ⟨⟨(obstacle_move_hit.1
        { (Shelf.new (Globals.start fun _ => 0)).1 with mPosX := 300, mPosY := 200, mVelX := 1 }
        211 (Globals.start fun _ => 0) (by rfl) (by rw [Shelf_atCheck_eq]; rfl)).1,
     (obstacle_move_hit.1
        { (Shelf.new (Globals.start fun _ => 0)).1 with mPosX := 300, mPosY := 200, mVelX := 1 }
        211 (Globals.start fun _ => 0) (by rfl) (by rw [Shelf_atCheck_eq]; rfl)).2.2.2⟩,
   ⟨(obstacle_move_hit.2
        { (Lights.new (Globals.start fun _ => 0)).1 with mPosX := 300, mPosY := -280, mVelX := 1 }
        100 300 (Roach.collidersAt 150) (Globals.start fun _ => 0)
        ⟨640 + 46, 0, 11, 420⟩ ⟨640, 420, 103, 45⟩ ⟨640 + 40, 465, 20, 17⟩ (by rfl)
        (by rw [Lights_atCheck_eq]; rfl)).1,
     ((obstacle_move_hit.2
        { (Lights.new (Globals.start fun _ => 0)).1 with mPosX := 300, mPosY := -280, mVelX := 1 }
        100 300 (Roach.collidersAt 150) (Globals.start fun _ => 0)
        ⟨640 + 46, 0, 11, 420⟩ ⟨640, 420, 103, 45⟩ ⟨640 + 40, 465, 20, 17⟩ (by rfl)
        (by rw [Lights_atCheck_eq]; rfl)).2 (by decide)).1⟩⟩


/-! ## Score -/

theorem calculateScore_fields (t : Nat) (g : Globals) (ht : t < 2 ^ 32) (hs : g.startTime = 0) :
    (calculateScore t t g).startTime = 0
    ∧ (calculateScore t t g).currentScore =
        if t % 100 = 0 ∧ 3000 ≤ t then (g.currentScore + 5) % 2 ^ 32 else g.currentScore := by
  have e : (t + 2 ^ 32 - g.startTime) % 2 ^ 32 = t := by
    rw [hs]
    omega
  unfold calculateScore
  rw [e]
  simp only [ge_iff_le]
  split_ifs <;> simp [hs]

theorem sampleScore_value (g : Globals) (T : Nat) (hT : T < 2 ^ 32)
    (hs : g.startTime = 0) (hc : g.currentScore = 0) :
    (sampleScore g T).startTime = 0
    ∧ (sampleScore g T).currentScore = if T < 3000 then 0 else 5 * ((T - 3000) / 100 + 1) := by
  induction T with
  | zero =>
    obtain ⟨h1, h2⟩ := calculateScore_fields 0 g (by norm_num) hs
    simp only [sampleScore]
    refine ⟨h1, ?_⟩
    rw [h2, hc]
    simp
  | succ n ih =>
    obtain ⟨ih1, ih2⟩ := ih (by omega)
    obtain ⟨h1, h2⟩ := calculateScore_fields (n + 1) (sampleScore g n) hT ih1
    simp only [sampleScore]
    refine ⟨h1, ?_⟩
    rw [h2, ih2]
    have hT' : n + 1 < 4294967296 := by simpa using hT
    split_ifs <;> omega

/-- Claim C12, counterexample: a session started at `t = 0` and sampled at
every millisecond `0, ..., 3000` has the score 5 at `T = 3000` (the case
`k = 0`), not `5 * 0 = 0`: the sample at 3000 itself passes the test
`>= 3000`. -/
theorem sampleScore_counterexample :
    (sampleScore (startGame_init 0 (Globals.start fun _ => 0)) (3000 + 100 * 0)).currentScore = 5
    ∧ (sampleScore (startGame_init 0 (Globals.start fun _ => 0)) (3000 + 100 * 0)).currentScore
        ≠ 5 * 0 := by
  have h := (sampleScore_value (startGame_init 0 (Globals.start fun _ => 0)) (3000 + 100 * 0)
    (by norm_num) rfl rfl).2
  rw [h]
  decide

/-- Claim C12, amended: for a session started at `t = 0` with score 0 and
`calculateScore` sampled once at every millisecond `0, 1, ..., T` (`T`
within the `Uint32` range of the clock), the score is 0 for every
`T < 3000` and exactly `5 * (k + 1)` at `T = 3000 + 100 * k` for every
`k ≥ 0`: the first increment happens at `t = 3000` itself. -/
theorem sampleScore_formula (g : Globals) :
    (∀ T : Nat, T < 3000 → (sampleScore (startGame_init 0 g) T).currentScore = 0)
    ∧ (∀ k : Nat, 3000 + 100 * k < 2 ^ 32 →
        (sampleScore (startGame_init 0 g) (3000 + 100 * k)).currentScore = 5 * (k + 1)) := by
  constructor
  · intro T hT
    have h := (sampleScore_value (startGame_init 0 g) T (by omega) rfl rfl).2
    rw [h, if_pos hT]
  · intro k hk
    have h := (sampleScore_value (startGame_init 0 g) (3000 + 100 * k) hk rfl rfl).2
    rw [h, if_neg (by omega)]
    have e : (3000 + 100 * k - 3000) / 100 = k := by omega
    rw [e]

/-- The session of the program start: score 0 after 10 milliseconds and
score 15 at `T = 3200` (`k = 2`). -/
theorem sampleScore_formula_witness :
    (sampleScore (startGame_init 0 (Globals.start fun _ => 0)) 10).currentScore = 0
    ∧ (sampleScore (startGame_init 0 (Globals.start fun _ => 0)) (3000 + 100 * 2)).currentScore
        = 5 * (2 + 1) :=
  ⟨(sampleScore_formula (Globals.start fun _ => 0)).1 10 (by decide),
   (sampleScore_formula (Globals.start fun _ => 0)).2 2 (by norm_num)⟩

/-! ## High score -/

theorem atoiUint32_of_range (z : Int) (h0 : 0 ≤ z) (h1 : z < 2 ^ 31) :
    atoiUint32 z = z.toNat := by
  unfold atoiUint32
  rw [Int.emod_eq_of_lt h0 (by omega)]

theorem sprintfD_of_range (u : Nat) (h : u < 2 ^ 31) : sprintfD u = (u : Int) := by
  unfold sprintfD
  rw [if_pos h]

theorem evaluateScore_keep (file : HsFile) (z : Int) (g : Globals) (hread : file.read = some z)
    (h0 : 0 ≤ z) (h1 : z < 2 ^ 31) (hle : (g.currentScore : Int) ≤ z) :
    evaluateScore file g = file := by
  have hz : ((z.toNat : Nat) : Int) = z := Int.toNat_of_nonneg h0
  have hlt : z.toNat < 2 ^ 31 := by omega
  have hcur : g.currentScore ≤ z.toNat := by omega
  have hcontent : file.content = some z := by
    unfold HsFile.read at hread
    split_ifs at hread
    exact hread
  have hsame : ({ file with content := some z } : HsFile) = file := by
    cases file
    simp only at hcontent
    simp [hcontent]
  simp only [evaluateScore, hread, atoiUint32_of_range z h0 h1]
  have hng : ¬ (z.toNat ≥ 0 ∧ g.currentScore > z.toNat) := by omega
  rw [if_neg hng]
  by_cases hc : g.currentScore < z.toNat
  · simp [hc]
  · rw [if_neg hc]
    by_cases h1' : z.toNat = 1
    · simp [h1']
    · rw [if_pos h1', sprintfD_of_range _ hlt, hz, hsame]
      split_ifs <;> rfl

/-- Claim C13: with the high-score file modelled as an optional stored
integer (absent, or readable and holding `z` with `0 ≤ z` in the `int`
range that `atoi` reads), `evaluateScore` leaves the file as it is for
every current score that is at most the stored value (ties and lower
scores), and it changes the file only when the current score is strictly
greater; for every file, also an unreadable one, the value a later read
returns (0 when the read fails) changes only when the current score is
strictly greater than it. -/
theorem evaluateScore_conditional_write :
    (∀ (z : Int) (w : Bool) (g : Globals), 0 ≤ z → z < 2 ^ 31 →
      ((g.currentScore : Int) ≤ z →
        evaluateScore { content := some z, readable := true, writable := w } g
          = { content := some z, readable := true, writable := w })
      ∧ (evaluateScore { content := some z, readable := true, writable := w } g
          ≠ { content := some z, readable := true, writable := w } →
        (g.currentScore : Int) > z))
    ∧ (∀ (file : HsFile) (g : Globals),
        (∀ z, file.read = some z → 0 ≤ z ∧ z < 2 ^ 31) →
        showScore_highScore (evaluateScore file g) ≠ showScore_highScore file →
        (g.currentScore : Int) > showScore_highScore file) := by
  constructor
  · intro z w g h0 h1
    refine ⟨evaluateScore_keep _ z g rfl h0 h1, fun hne => ?_⟩
    by_contra hle
    exact hne (evaluateScore_keep _ z g rfl h0 h1 (by omega))
  · intro file g hfile hne
    cases hread : file.read with
    | some z =>
      obtain ⟨h0, h1⟩ := hfile z hread
      by_contra hle
      apply hne
      rw [evaluateScore_keep file z g hread h0 h1
        (by simpa [showScore_highScore, hread] using hle)]
    | none =>
      by_contra hle
      have hc : g.currentScore = 0 := by
        simp only [showScore_highScore, hread] at hle
        omega
      apply hne
      have hbefore : showScore_highScore file = 0 := by
        simp [showScore_highScore, hread]
      rw [hbefore]
      obtain ⟨content, readable, writable⟩ := file
      cases readable <;> cases writable <;>
        simp_all [evaluateScore, showScore_highScore, HsFile.read, sprintfD]

/-- A stored high score of 50: a tie (current score 50) and a lower score
(current score 20) both leave 50 in the file. -/
theorem evaluateScore_conditional_write_witness :
    evaluateScore { content := some 50, readable := true, writable := true }
        { (Globals.start fun _ => 0) with currentScore := 50 }
      = { content := some 50, readable := true, writable := true }
    ∧ evaluateScore { content := some 50, readable := true, writable := true }
        { (Globals.start fun _ => 0) with currentScore := 20 }
      = { content := some 50, readable := true, writable := true } :=
  ⟨(evaluateScore_conditional_write.1 50 true
      { (Globals.start fun _ => 0) with currentScore := 50 } (by decide) (by decide)).1 (by decide),
   (evaluateScore_conditional_write.1 50 true
      { (Globals.start fun _ => 0) with currentScore := 20 } (by decide) (by decide)).1 (by decide)⟩

/-- Claim C14, counterexample: five inputs of the claim at which the reread
does not give `V`.  (1) No file, `V = 1`: 1 is the value the code uses for
"do not write", nothing is written, the reread gives 0.  (2) A file that
exists and can be written but not read, `V = 5`: 5 is written, the read
fails again, the reread gives 0.  (3) A readable file holding 0 that cannot
be written, `V = 5`: the reread gives 0.  (4) A file holding `-5`, which is
smaller than `V = 5`: `atoi` gives a huge `Uint32`, nothing is written, the
reread gives `-5`.  (5) No file, `V = 2^31`: `%d` writes `-2^31`. -/
theorem evaluateScore_roundtrip_counterexample :
    (showScore_highScore
        (evaluateScore { content := none, readable := true, writable := true }
          { (Globals.start fun _ => 0) with currentScore := 1 }) = 0
      ∧ showScore_highScore
        (evaluateScore { content := none, readable := true, writable := true }
          { (Globals.start fun _ => 0) with currentScore := 1 }) ≠ 1)
    ∧ (evaluateScore { content := some 0, readable := false, writable := true }
          { (Globals.start fun _ => 0) with currentScore := 5 }
        = { content := some 5, readable := false, writable := true }
      ∧ showScore_highScore
        (evaluateScore { content := some 0, readable := false, writable := true }
          { (Globals.start fun _ => 0) with currentScore := 5 }) = 0
      ∧ showScore_highScore
        (evaluateScore { content := some 0, readable := false, writable := true }
          { (Globals.start fun _ => 0) with currentScore := 5 }) ≠ 5)
    ∧ (showScore_highScore
        (evaluateScore { content := some 0, readable := true, writable := false }
          { (Globals.start fun _ => 0) with currentScore := 5 }) = 0
      ∧ showScore_highScore
        (evaluateScore { content := some 0, readable := true, writable := false }
          { (Globals.start fun _ => 0) with currentScore := 5 }) ≠ 5)
    ∧ (showScore_highScore
        (evaluateScore { content := some (-5), readable := true, writable := true }
          { (Globals.start fun _ => 0) with currentScore := 5 }) = -5
      ∧ showScore_highScore
        (evaluateScore { content := some (-5), readable := true, writable := true }
          { (Globals.start fun _ => 0) with currentScore := 5 }) ≠ 5)
    ∧ (showScore_highScore
        (evaluateScore { content := none, readable := true, writable := true }
          { (Globals.start fun _ => 0) with currentScore := 2 ^ 31 }) = -2 ^ 31
      ∧ showScore_highScore
        (evaluateScore { content := none, readable := true, writable := true }
          { (Globals.start fun _ => 0) with currentScore := 2 ^ 31 }) ≠ 2 ^ 31) := by
  refine ⟨⟨by rfl, by decide⟩, ⟨by rfl, by rfl, by decide⟩, ⟨by rfl, by decide⟩,
    ⟨by rfl, by decide⟩, ⟨by rfl, by decide⟩⟩

/-- Claim C14, amended: for every `V` other than 1 (the value
`evaluateScore` reserves for "do not write") and below `2^31` (what `%d`
prints unchanged), when the high-score file can be opened for writing and,
once it exists, for reading, and it is absent or holds a non-negative value
smaller than `V`, `evaluateScore` with current score `V` followed by the
read of `showScore(true)` yields `V`. -/
theorem evaluateScore_roundtrip (V : Nat) (file : HsFile) (g : Globals)
    (hV1 : V ≠ 1) (hV : V < 2 ^ 31) (hg : g.currentScore = V)
    (hr : file.readable = true) (hw : file.writable = true)
    (hfile : file.content = none ∨ ∃ z : Int, file.content = some z ∧ 0 ≤ z ∧ z < (V : Int)) :
    showScore_highScore (evaluateScore file g) = (V : Int) := by
  obtain ⟨content, readable, writable⟩ := file
  simp only at hr hw hfile
  subst hr hw
  rcases hfile with rfl | ⟨z, rfl, h0, hlt⟩
  · by_cases h : V = 0
    · simp [evaluateScore, HsFile.read, hg, h, showScore_highScore, sprintfD]
    · simp [evaluateScore, HsFile.read, hg, h, hV1, showScore_highScore, sprintfD_of_range V hV]
  · have hz : ((z.toNat : Nat) : Int) = z := Int.toNat_of_nonneg h0
    have hgt : z.toNat < V := by omega
    simp [evaluateScore, HsFile.read, atoiUint32_of_range z h0 (by omega), hgt, hg, hV1,
      showScore_highScore, sprintfD_of_range V hV]

/-- No file and the score 35, and a file holding 20 and the score 35: the
reread gives 35. -/
theorem evaluateScore_roundtrip_witness :
    showScore_highScore
        (evaluateScore { content := none, readable := true, writable := true }
          { (Globals.start fun _ => 0) with currentScore := 35 }) = 35
    ∧ showScore_highScore
        (evaluateScore { content := some 20, readable := true, writable := true }
          { (Globals.start fun _ => 0) with currentScore := 35 }) = 35 :=
  ⟨evaluateScore_roundtrip 35 { content := none, readable := true, writable := true }
      { (Globals.start fun _ => 0) with currentScore := 35 }
      (by decide) (by decide) rfl rfl rfl (Or.inl rfl),
   evaluateScore_roundtrip 35 { content := some 20, readable := true, writable := true }
      { (Globals.start fun _ => 0) with currentScore := 35 }
      (by decide) (by decide) rfl rfl rfl (Or.inr ⟨20, rfl, by decide, by decide⟩)⟩

/-! ## Initial placement -/

theorem range_obstacles : List.range NUM_OF_OBSTACLES = [0, 1] := by
  decide

theorem randomise_shelf_two (s0 s1 : Shelf) (seq : Nat → Nat) (g : Globals) :
    (randomise_shelf [s0, s1] seq g).1 =
      [Shelf.shiftColliders { s0 with mPosY := 290 + (seq 0 : Int) % 91 },
       Shelf.shiftColliders
        { Shelf.shiftColliders { s1 with mPosX := s0.mPosX + 141 + 200 } with
            mPosY := 290 + (seq 1 : Int) % 91 }] := by
  simp [randomise_shelf, range_obstacles, randomise_shelf_body, srand, rand, SCREEN_HEIGHT,
    Shelf.SHELF_WIDTH, Shelf.shiftColliders]

theorem randomise_lights_two (l0 l1 : Lights) (seq : Nat → Nat) (g : Globals) :
    (randomise_lights [l0, l1] seq g).1 =
      [Lights.shiftColliders { l0 with mPosY := (340 + (seq 0 : Int) % 41) * -1 },
       Lights.shiftColliders
        { Lights.shiftColliders { l1 with mPosX := l0.mPosX + 103 + 250 } with
            mPosY := (340 + (seq 1 : Int) % 41) * -1 }] := by
  simp [randomise_lights, range_obstacles, randomise_lights_body, srand, rand,
    Lights.LIGHTS_HEIGHT, Lights.LIGHTS_WIDTH, Lights_shiftColliders_fields]

theorem Lights_dims_three (cols : List SDL_Rect)
    (hdim : cols.map (fun c => (c.w, c.h)) = [(11, 420), (103, 45), (20, 17)]) :
    ∃ c0 c1 c2, cols = [c0, c1, c2] ∧ (c0.w = 11 ∧ c0.h = 420) ∧ (c1.w = 103 ∧ c1.h = 45)
      ∧ (c2.w = 20 ∧ c2.h = 17) := by
  have hlen : cols.length = 3 := by
    have := congrArg List.length hdim
    simpa using this
  match cols, hlen, hdim with
  | [c0, c1, c2], _, h =>
    simp only [List.map_cons, List.map_nil, List.cons.injEq, Prod.mk.injEq, and_true] at h
    exact ⟨c0, c1, c2, rfl, h.1, h.2.1, h.2.2⟩

/-- Claim C15: after `randomise_shelf` and `randomise_lights` on the two
shelves and the two lights of a session (boxes with the sizes given by the
constructors), for every random sequence: the second shelf is at
`shelf[0].x + SHELF_WIDTH + 200` and the second lights at
`lights[0].x + LIGHTS_WIDTH + 250`; every shelf has `290 ≤ y ≤ 380`, which
is in the lower half of the screen; every lights have `-380 ≤ y ≤ -340`;
and the boxes of each obstacle are at its final position plus the fixed
offsets. -/
theorem randomise_initial_placement (s0 s1 : Shelf) (l0 l1 : Lights) (seq seq2 : Nat → Nat)
    (g g2 : Globals)
    (hs0 : s0.mColliders.map (fun c => (c.w, c.h)) = [(141, 480)])
    (hs1 : s1.mColliders.map (fun c => (c.w, c.h)) = [(141, 480)])
    (hl0 : l0.mColliders.map (fun c => (c.w, c.h)) = [(11, 420), (103, 45), (20, 17)])
    (hl1 : l1.mColliders.map (fun c => (c.w, c.h)) = [(11, 420), (103, 45), (20, 17)]) :
    (∃ a b : Shelf, (randomise_shelf [s0, s1] seq g).1 = [a, b]
      ∧ b.mPosX = a.mPosX + Shelf.SHELF_WIDTH + 200
      ∧ (SCREEN_HEIGHT / 2 ≤ a.mPosY ∧ 290 ≤ a.mPosY ∧ a.mPosY ≤ 380)
      ∧ (SCREEN_HEIGHT / 2 ≤ b.mPosY ∧ 290 ≤ b.mPosY ∧ b.mPosY ≤ 380)
      ∧ a.mColliders = [⟨a.mPosX, a.mPosY, 141, 480⟩]
      ∧ b.mColliders = [⟨b.mPosX, b.mPosY, 141, 480⟩])
    ∧ (∃ c d : Lights, (randomise_lights [l0, l1] seq2 g2).1 = [c, d]
      ∧ d.mPosX = c.mPosX + Lights.LIGHTS_WIDTH + 250
      ∧ (-380 ≤ c.mPosY ∧ c.mPosY ≤ -340)
      ∧ (-380 ≤ d.mPosY ∧ d.mPosY ≤ -340)
      ∧ c.mColliders = [⟨c.mPosX + 46, c.mPosY, 11, 420⟩, ⟨c.mPosX, c.mPosY + 420, 103, 45⟩,
          ⟨c.mPosX + 40, c.mPosY + 420 + 45, 20, 17⟩]
      ∧ d.mColliders = [⟨d.mPosX + 46, d.mPosY, 11, 420⟩, ⟨d.mPosX, d.mPosY + 420, 103, 45⟩,
          ⟨d.mPosX + 40, d.mPosY + 420 + 45, 20, 17⟩]) := by
  obtain ⟨p0, hp0, hw0, hh0⟩ := Shelf_dims_single _ hs0
  obtain ⟨p1, hp1, hw1, hh1⟩ := Shelf_dims_single _ hs1
  obtain ⟨a0, a1, a2, ha, ⟨ha0w, ha0h⟩, ⟨ha1w, ha1h⟩, ⟨ha2w, ha2h⟩⟩ := Lights_dims_three _ hl0
  obtain ⟨b0, b1, b2, hb, ⟨hb0w, hb0h⟩, ⟨hb1w, hb1h⟩, ⟨hb2w, hb2h⟩⟩ := Lights_dims_three _ hl1
  constructor
  · refine ⟨_, _, randomise_shelf_two s0 s1 seq g, ?_⟩
    simp only [Shelf.shiftColliders, hp0, hp1, Shelf.shiftFrom, hw0, hh0, hw1, hh1,
      Shelf.SHELF_WIDTH, SCREEN_HEIGHT]
    refine ⟨trivial, ⟨by omega, by omega, by omega⟩, ⟨by omega, by omega, by omega⟩, ?_, ?_⟩ <;> simp
  · refine ⟨_, _, randomise_lights_two l0 l1 seq2 g2, ?_⟩
    simp only [Lights.shiftColliders, ha, hb, ha0w, ha0h, ha1w, ha1h, ha2w, ha2h,
      hb0w, hb0h, hb1w, hb1h, hb2w, hb2h, Lights.LIGHTS_WIDTH]
    refine ⟨trivial, ⟨by omega, by omega⟩, ⟨by omega, by omega⟩, ?_, ?_⟩ <;> simp

/-- The two shelves and the two lights as `startGame` constructs them
(random draws 7), then placed: the second shelf is 341 to the right of the
first, the second lights 353 to the right of the first. -/
theorem randomise_initial_placement_witness :
    (∃ a b : Shelf,
      (randomise_shelf
        [(Shelf.new (Globals.start fun _ => 7)).1,
         (Shelf.new (Shelf.new (Globals.start fun _ => 7)).2).1]
        (fun _ => 3) (Globals.start fun _ => 7)).1 = [a, b]
      ∧ b.mPosX = a.mPosX + Shelf.SHELF_WIDTH + 200)
    ∧ (∃ c d : Lights,
      (randomise_lights
        [(Lights.new (Globals.start fun _ => 7)).1,
         (Lights.new (Lights.new (Globals.start fun _ => 7)).2).1]
        (fun _ => 3) (Globals.start fun _ => 7)).1 = [c, d]
      ∧ d.mPosX = c.mPosX + Lights.LIGHTS_WIDTH + 250) :=
  have h := randomise_initial_placement
    (Shelf.new (Globals.start fun _ => 7)).1 (Shelf.new (Shelf.new (Globals.start fun _ => 7)).2).1
    (Lights.new (Globals.start fun _ => 7)).1 (Lights.new (Lights.new (Globals.start fun _ => 7)).2).1
    (fun _ => 3) (fun _ => 3) (Globals.start fun _ => 7) (Globals.start fun _ => 7)
    (by rfl) (by rfl) (by rfl) (by rfl)
  ⟨h.1.elim fun a ha => ha.elim fun b hb => ⟨a, b, hb.1, hb.2.1⟩,
   h.2.elim fun c hc => hc.elim fun d hd => ⟨c, d, hd.1, hd.2.1⟩⟩

/-! ## Flyer: velocity derived from the accumulator -/

theorem toInt_eq_floor (a : ℚ) :
    toInt a = if 0 ≤ a ∨ ((⌊a⌋ : Int) : ℚ) = a then ⌊a⌋ else ⌊a⌋ + 1 := by
  unfold toInt
  by_cases h0 : 0 ≤ a
  · simp [h0]
  · by_cases hi : ((⌊a⌋ : Int) : ℚ) = a
    · rw [if_neg h0, if_pos (Or.inr hi)]
      rw [← hi]
      simp
    · have hor : ¬ (0 ≤ a ∨ ((⌊a⌋ : Int) : ℚ) = a) := by
        rintro (h | h)
        · exact h0 h
        · exact hi h
      rw [if_neg h0, if_neg hor, Int.ceil_eq_iff]
      constructor
      · have h1 : ((⌊a⌋ : Int) : ℚ) ≤ a := Int.floor_le a
        have h2 : ((⌊a⌋ : Int) : ℚ) < a := lt_of_le_of_ne h1 hi
        push_cast
        linarith
      · have := Int.lt_floor_add_one a
        push_cast
        linarith

theorem roundEven_eq (q : ℚ) (n : Int) (h : |q - n| < 1 / 2) : roundEven q = n := by
  rw [abs_lt] at h
  obtain ⟨h1, h2⟩ := h
  unfold roundEven
  by_cases hq : (n : ℚ) ≤ q
  · have hf : ⌊q⌋ = n := by
      rw [Int.floor_eq_iff]
      constructor
      · exact hq
      · linarith
    rw [hf, if_pos (by linarith)]
  · have hf : ⌊q⌋ = n - 1 := by
      rw [Int.floor_eq_iff]
      push_cast
      constructor <;> linarith
    rw [hf]
    push_cast
    rw [if_neg (by linarith), if_pos (by linarith)]
    ring

theorem binary32_eq (x : ℚ) (e n : Int) (he : -126 ≤ e) (hlo : (2 : ℚ) ^ e ≤ |x|)
    (hhi : |x| < (2 : ℚ) ^ (e + 1)) (hn : |x / 2 ^ (e - 23) - n| < 1 / 2) :
    binary32 x = (n : ℚ) * 2 ^ (e - 23) := by
  have hpos : 0 < |x| := lt_of_lt_of_le (by positivity) hlo
  have hx : x ≠ 0 := abs_pos.1 hpos
  have hlog : Int.log 2 |x| = e := by
    have h1 : e ≤ Int.log 2 |x| :=
      (Int.zpow_le_iff_le_log (by norm_num) hpos).1 (by exact_mod_cast hlo)
    have h2 : Int.log 2 |x| < e + 1 :=
      (Int.lt_zpow_iff_log_lt (by norm_num) hpos).1 (by exact_mod_cast hhi)
    omega
  unfold binary32
  rw [if_neg hx]
  simp only [hlog, max_eq_left he]
  rw [roundEven_eq _ n hn]

/-- The literal `0.008f` is the binary32 number `0x3c03126f`. -/
theorem binary32_0_008 : binary32 (8 / 1000) = 8589935 / 1073741824 := by
  rw [binary32_eq (8 / 1000) (-7) 8589935 (by norm_num) (by norm_num [abs_of_pos])
    (by norm_num [abs_of_pos]) (by norm_num [abs_lt])]
  norm_num

/-- The literal `2.2f` is the binary32 number `0x400ccccd`. -/
theorem binary32_2_2 : binary32 (22 / 10) = 9227469 / 4194304 := by
  rw [binary32_eq (22 / 10) 1 9227469 (by norm_num) (by norm_num [abs_of_pos])
    (by norm_num [abs_of_pos]) (by norm_num [abs_lt])]
  norm_num

/-- The impulse `-GRAVITY / 2.2f` computed in binary32 is `0xc091745d`,
about `-4.5454545`. -/
theorem binary32_impulse :
    binary32 (-Roach.GRAVITY / binary32 (22 / 10)) = -9532509 / 2097152 := by
  rw [binary32_2_2]
  rw [binary32_eq (-Roach.GRAVITY / (9227469 / 4194304)) 2 (-9532509) (by norm_num)
    (by norm_num [Roach.GRAVITY, abs_of_neg]) (by norm_num [Roach.GRAVITY, abs_of_neg])
    (by norm_num [Roach.GRAVITY, abs_lt])]
  norm_num

theorem Roach_gravitate32_fields (r : Roach) :
    r.gravitate32.mRVel = binary32 (r.mRVel + binary32 (8 / 1000))
    ∧ r.gravitate32.mVelY = toInt (binary32 (r.mRVel + binary32 (8 / 1000))) := by
  simp [Roach.gravitate32]

/-- From the impulse value the binary32 sum with `0.008f` is
`-2378933/524288`, about `-4.5374546`. -/
theorem binary32_impulse_step :
    binary32 (-9532509 / 2097152 + 8589935 / 1073741824) = -2378933 / 524288 := by
  rw [binary32_eq (-9532509 / 2097152 + 8589935 / 1073741824) 2 (-9515732) (by norm_num)
    (by norm_num [abs_of_neg]) (by norm_num [abs_of_neg]) (by norm_num [abs_lt])]
  norm_num

/-- Binary32 rounding can carry the sum across an integer: from the
accumulator `0x3f7df3b6` (just below 0.992) the exact sum with `0.008f` is
below 1, the stored sum is 1 and the velocity is 1. -/
theorem Roach_gravitate32_carry :
    ((8321499 : ℚ) / 8388608 + 8589935 / 1073741824 < 1)
    ∧ (Roach.gravitate32 { Roach.new with mRVel := 8321499 / 8388608 }).mRVel = 1
    ∧ (Roach.gravitate32 { Roach.new with mRVel := 8321499 / 8388608 }).mVelY = 1 := by
  have hsum : binary32 ((8321499 : ℚ) / 8388608 + 8589935 / 1073741824) = 1 := by
    rw [binary32_eq (8321499 / 8388608 + 8589935 / 1073741824) (-1) 16777216 (by norm_num)
      (by norm_num [abs_of_pos]) (by norm_num [abs_of_pos]) (by norm_num [abs_lt])]
    norm_num
  refine ⟨by norm_num, ?_, ?_⟩
  · rw [(Roach_gravitate32_fields _).1, binary32_0_008]
    exact hsum
  · rw [(Roach_gravitate32_fields _).2, binary32_0_008]
    show toInt (binary32 ((8321499 : ℚ) / 8388608 + 8589935 / 1073741824)) = 1
    rw [hsum, toInt_one]

/-- Claim C16, counterexample: right after an upward impulse the
accumulator is the binary32 value of `-GRAVITY / 2.2f`, about `-4.5454545`.
`Roach::gravitate` stores the binary32 sum `-2378933/524288`, about
`-4.5374546`, and sets the velocity to `-4`, while the floor of the updated
accumulator (and of the exact sum with 0.008) is `-5`. -/
theorem Roach_gravitate_floor_counterexample :
    (Roach.gravitate32
        { Roach.new with mRVel := binary32 (-Roach.GRAVITY / binary32 (22 / 10)) }).mRVel
      = -2378933 / 524288
    ∧ (Roach.gravitate32
        { Roach.new with mRVel := binary32 (-Roach.GRAVITY / binary32 (22 / 10)) }).mVelY = -4
    ∧ ⌊(Roach.gravitate32
        { Roach.new with mRVel := binary32 (-Roach.GRAVITY / binary32 (22 / 10)) }).mRVel⌋ = -5
    ∧ ⌊binary32 (-Roach.GRAVITY / binary32 (22 / 10)) + 8 / 1000⌋ = -5
    ∧ (Roach.gravitate32
        { Roach.new with mRVel := binary32 (-Roach.GRAVITY / binary32 (22 / 10)) }).mVelY
      ≠ ⌊(Roach.gravitate32
        { Roach.new with mRVel := binary32 (-Roach.GRAVITY / binary32 (22 / 10)) }).mRVel⌋ := by
  have hr : (Roach.gravitate32
        { Roach.new with mRVel := binary32 (-Roach.GRAVITY / binary32 (22 / 10)) }).mRVel
      = -2378933 / 524288 := by
    rw [(Roach_gravitate32_fields _).1, binary32_0_008]
    show binary32 (binary32 (-Roach.GRAVITY / binary32 (22 / 10)) + 8589935 / 1073741824) = _
    rw [binary32_impulse, binary32_impulse_step]
  have hv : (Roach.gravitate32
        { Roach.new with mRVel := binary32 (-Roach.GRAVITY / binary32 (22 / 10)) }).mVelY = -4 := by
    rw [(Roach_gravitate32_fields _).2, binary32_0_008]
    show toInt (binary32 (binary32 (-Roach.GRAVITY / binary32 (22 / 10))
      + 8589935 / 1073741824)) = _
    rw [binary32_impulse, binary32_impulse_step]
    unfold toInt
    rw [if_neg (by norm_num), Int.ceil_eq_iff]
    norm_num
  have hf : ⌊(Roach.gravitate32
        { Roach.new with mRVel := binary32 (-Roach.GRAVITY / binary32 (22 / 10)) }).mRVel⌋
      = -5 := by
    rw [hr, Int.floor_eq_iff]
    norm_num
  have hx : ⌊binary32 (-Roach.GRAVITY / binary32 (22 / 10)) + 8 / 1000⌋ = -5 := by
    rw [binary32_impulse, Int.floor_eq_iff]
    norm_num
  refine ⟨hr, hv, hf, hx, ?_⟩
  rw [hv, hf]
  decide

/-- Claim C16, amended: for every value of the accumulator, after
`Roach::gravitate` the accumulator holds the binary32 sum `a` of its old
value and `0.008f`, and the integer velocity is `a` truncated toward zero
(the conversion `(int)a`): it is `floor a` when `a ≥ 0` or `a` is an
integer, and `floor a + 1` when `a` is negative and not an integer (as
right after an upward impulse). -/
theorem Roach_gravitate_truncates (r : Roach) :
    r.gravitate32.mRVel = binary32 (r.mRVel + binary32 (8 / 1000))
    ∧ r.gravitate32.mVelY =
      if 0 ≤ r.gravitate32.mRVel ∨ ((⌊r.gravitate32.mRVel⌋ : Int) : ℚ) = r.gravitate32.mRVel then
        ⌊r.gravitate32.mRVel⌋
      else ⌊r.gravitate32.mRVel⌋ + 1 := by
  refine ⟨(Roach_gravitate32_fields r).1, ?_⟩
  rw [(Roach_gravitate32_fields r).2, (Roach_gravitate32_fields r).1, toInt_eq_floor]

end CockyRoach
